import Mathlib

/-!
Shallow embedding of the AlmirahShop order/return lifecycle.

The definitions below are translated from `src/main.py`, `src/models.py`,
`src/schemas.py` and `src/auth_utils.py`.  Conventions used throughout:

* SQLAlchemy rows become Lean structures; nullable columns become `Option`.
* `datetime.utcnow()` is modelled by an explicit `now : Nat` argument; the
  claims only ever compare timestamps for (in)equality and presence.
* Monetary `Float` columns are modelled as `Int`; no verified claim performs
  floating-point arithmetic on them.
* JSON `Text` columns (`sizes`, `colors`, `legacy_variants`,
  `specifications`) are modelled by the decoded value they serialize
  (`json.dumps` is injective on these payloads), so
  `serialize_json_field`/`deserialize_json_field` round-trips become the
  identity in the model.
* `fastapi.HTTPException` becomes an error value carried in `Except`;
  a handler that raises before committing leaves the database unchanged,
  which `runHandler` makes explicit.
* Python truthiness on nullable columns (`if not x`, `if x and ...`) is
  modelled by `strTruthy`/`boolTruthy`; Python string interpolation of a
  possibly-`None` column (`f"{item.return_status}"`) renders `None` as the
  string "None", modelled by `Option.getD · "None"`.
-/

namespace AlmirahShop

/-- Error raised by a request handler; mirrors `fastapi.HTTPException`
with its status code and detail message. -/
structure HTTPException where
  status_code : Nat
  detail : String
  deriving Repr, DecidableEq

/-- Truthiness of a nullable string column exactly as Python evaluates it:
`None` and the empty string are falsy, every other string is truthy. -/
def strTruthy : Option String → Bool
  | none => false
  | some s => s ≠ ""

/-- Truthiness of a nullable boolean column exactly as Python evaluates it:
`None` is falsy. -/
def boolTruthy : Option Bool → Bool
  | none => false
  | some b => b

/-- Row of the `users` table (`src/models.py`, class `User`); OTP, password
reset and profile columns not read by any embedded handler are omitted. -/
structure User where
  id : Nat
  username : String
  email : String
  phone : Option String := none
  hashed_password : String := ""
  is_active : Option Bool := some false
  is_admin : Option Bool := some false
  is_seller : Option Bool := some false
  role : String := "customer"
  is_approved : Option Bool := some false
  deriving Repr, DecidableEq

/-- Row of the `orders` table (`src/models.py`, class `Order`); the
denormalized shipping-snapshot columns are carried opaquely by the handlers
embedded here and are omitted. -/
structure Order where
  id : Nat
  user_id : Nat
  total_price : Int := 0
  status : String := "Active"
  deriving Repr, DecidableEq

/-- Row of the `order_items` table (`src/models.py`, class `OrderItem`). -/
structure OrderItem where
  id : Nat
  order_id : Nat
  product_id : Option Nat
  variant_id : Option Nat := none
  quantity : Nat := 1
  price : Int
  variant_size : Option String := none
  variant_color : Option String := none
  variant_image_url : Option String := none
  seller_id : Option Nat := none
  status : String := "Pending"
  rejection_reason : Option String := none
  return_status : Option String := some "None"
  return_reason : Option String := none
  return_notes : Option String := none
  return_requested_at : Option Nat := none
  return_processed_at : Option Nat := none
  is_return_eligible : Option Bool := some true
  deriving Repr, DecidableEq

/-- Row of the `products` table (`src/models.py`, class `Product`). -/
structure Product where
  id : Nat
  name : String
  description : Option String := none
  image_url : Option String := none
  price : Int
  discounted_price : Option Int := none
  gender : Option String := none
  category : Option String := none
  seller_id : Option Nat := none
  is_verified : Option Bool := some false
  verification_status : Option String := some "Pending"
  verification_notes : Option String := none
  submitted_at : Option Nat := none
  sizes : Option (List String) := none
  colors : Option (List String) := none
  legacy_variants : Option (List (String × String)) := none
  size_fit : Option String := none
  material_care : Option String := none
  specifications : Option (List (String × String)) := none
  stock : Int := 0
  low_stock_threshold : Int := 5
  status : String := "IN_STOCK"
  deriving Repr, DecidableEq

/-- Row of the `product_variants` table (`src/models.py`, class
`ProductVariant`). -/
structure ProductVariant where
  id : Nat
  product_id : Nat
  size : Option String := none
  color : Option String := none
  image_url : Option String := none
  price : Option Int := none
  stock : Int := 0
  created_at : Nat := 0
  updated_at : Nat := 0
  deriving Repr, DecidableEq

/-- Row of the `cart_items` table (`src/models.py`, class `CartItem`). -/
structure CartItem where
  id : Nat
  user_id : Nat
  product_id : Nat
  variant_id : Option Nat := none
  quantity : Nat := 1
  deriving Repr, DecidableEq

/-- Row of the `wishlist_items` table (`src/models.py`, class
`WishlistItem`). -/
structure WishlistItem where
  id : Nat
  user_id : Nat
  product_id : Nat
  deriving Repr, DecidableEq

/-- Row of the `reviews` table (`src/models.py`, class `Review`); only the
columns the embedded handlers filter on are kept. -/
structure Review where
  id : Nat
  product_id : Nat
  user_id : Nat
  rating : Nat := 5
  comment : Option String := none
  deriving Repr, DecidableEq

/-- State of the relational store: one list of rows per table touched by the
embedded handlers. -/
structure Db where
  users : List User := []
  orders : List Order := []
  order_items : List OrderItem := []
  products : List Product := []
  product_variants : List ProductVariant := []
  cart_items : List CartItem := []
  wishlist_items : List WishlistItem := []
  reviews : List Review := []
  deriving Repr, DecidableEq

/-- Request body of `PATCH /seller/orders/.../reject`
(`src/schemas.py`, class `RejectOrderItemRequest`). -/
structure RejectOrderItemRequest where
  reason : Option String := none
  deriving Repr, DecidableEq

/-- Request body of `PATCH /admin/order-items/.../override-status`
(`src/schemas.py`, class `OverrideOrderItemStatusRequest`). -/
structure OverrideOrderItemStatusRequest where
  status : String
  reason : Option String := none
  deriving Repr, DecidableEq

/-- Request body of `POST /returns/request/...`
(`src/schemas.py`, class `ReturnRequestCreate`). -/
structure ReturnRequestCreate where
  reason : String
  notes : Option String := none
  deriving Repr, DecidableEq

/-- Request body of `PATCH /seller/returns/.../reject`
(`src/schemas.py`, class `ReturnRejectRequest`). -/
structure ReturnRejectRequest where
  notes : Option String := none
  deriving Repr, DecidableEq

/-- Request body of `PATCH /admin/returns/.../override-status`
(`src/schemas.py`, class `ReturnOverrideRequest`). -/
structure ReturnOverrideRequest where
  status : String
  notes : Option String := none
  deriving Repr, DecidableEq

/-- Dependency `admin_only` (`src/auth_utils.py`): the caller must carry the
admin role or the `is_admin == True` flag. -/
def admin_only (u : User) : Except HTTPException User :=
  if u.role = "admin" ∨ u.is_admin = some true then .ok u
  else .error ⟨403, "Admin access required"⟩

/-- Dependency `seller_only` (`src/auth_utils.py`): the caller must carry the
seller role and be approved; an unapproved seller receives the
machine-readable detail "SellerNotApproved". -/
def seller_only (u : User) : Except HTTPException User :=
  if u.role ≠ "seller" then .error ⟨403, "Seller access required"⟩
  else if ¬ boolTruthy u.is_approved then .error ⟨403, "SellerNotApproved"⟩
  else .ok u

/-- Dependency `customer_only` (`src/auth_utils.py`). -/
def customer_only (u : User) : Except HTTPException User :=
  if u.role ≠ "customer" then .error ⟨403, "Customer access required"⟩
  else .ok u

/-- Field update of the single order-item row with the given primary key,
leaving every other row unchanged (the ORM mutates the one fetched row via
`setattr`). -/
def updItem (iid : Nat) (f : OrderItem → OrderItem) (items : List OrderItem) :
    List OrderItem :=
  items.map fun i => if i.id = iid then f i else i

/-- Lookup of an order-item row by primary key. -/
def itemById (db : Db) (iid : Nat) : Option OrderItem :=
  db.order_items.find? fun i => decide (i.id = iid)

/-- Result of running one handler: on success the committed database, on a
raised `HTTPException` the unchanged one (every raise in the embedded
handlers happens before the first mutation is committed). -/
def runHandler (db : Db) (r : Except HTTPException Db) : Db :=
  match r with
  | .ok db2 => db2
  | .error _ => db

/-- Boolean success test on a handler result. -/
def handlerOk (r : Except HTTPException Db) : Bool :=
  match r with
  | .ok _ => true
  | .error _ => false

/-- Pure fold of `update_order_status_from_items` (`src/main.py`) over the
statuses of an order's items: "Completed" when all are "Delivered",
"Cancelled" when all are "Rejected", "Active" otherwise. -/
def derive_order_status (items : List OrderItem) : String :=
  let statuses := items.map (·.status)
  if statuses.all (· = "Delivered") then "Completed"
  else if statuses.all (· = "Rejected") then "Cancelled"
  else "Active"

/-- Function `update_order_status_from_items` (`src/main.py`): recompute the
order's aggregate status from all of its items; a missing order row or an
empty item set leaves the database untouched. -/
def update_order_status_from_items (order_id : Nat) (db : Db) : Db :=
  match db.orders.find? (fun o => decide (o.id = order_id)) with
  | none => db
  | some _ =>
    let order_items := db.order_items.filter fun i => decide (i.order_id = order_id)
    if order_items = [] then db
    else
      { db with
        orders := db.orders.map fun o =>
          if o.id = order_id then { o with status := derive_order_status order_items }
          else o }

/-- Handler `accept_order_item` (`src/main.py`,
`PATCH /seller/orders/.../accept`), after the `seller_only` gate. -/
def accept_order_item (order_item_id : Nat) (current_seller : User) (db : Db) :
    Except HTTPException Db :=
  match db.order_items.find?
      (fun i => decide (i.id = order_item_id ∧ i.seller_id = some current_seller.id)) with
  | none => .error ⟨403, "Order item not found or access denied"⟩
  | some item =>
    if item.status ≠ "Pending" ∧ item.status ≠ "Rejected" then
      .error ⟨400, "Cannot accept order item with status \x27" ++ item.status ++
        "\x27. Only Pending or Rejected items can be accepted."⟩
    else
      let db2 := { db with
        order_items := updItem order_item_id
          (fun i => { i with status := "Accepted", rejection_reason := none })
          db.order_items }
      .ok (update_order_status_from_items item.order_id db2)

/-- Handler `reject_order_item` (`src/main.py`,
`PATCH /seller/orders/.../reject`), after the `seller_only` gate. -/
def reject_order_item (order_item_id : Nat) (request : RejectOrderItemRequest)
    (current_seller : User) (db : Db) : Except HTTPException Db :=
  match db.order_items.find?
      (fun i => decide (i.id = order_item_id ∧ i.seller_id = some current_seller.id)) with
  | none => .error ⟨403, "Order item not found or access denied"⟩
  | some item =>
    if item.status ≠ "Pending" ∧ item.status ≠ "Accepted" then
      .error ⟨400, "Cannot reject order item with status \x27" ++ item.status ++
        "\x27. Only Pending or Accepted items can be rejected."⟩
    else
      let db2 := { db with
        order_items := updItem order_item_id
          (fun i => { i with status := "Rejected", rejection_reason := request.reason })
          db.order_items }
      .ok (update_order_status_from_items item.order_id db2)

/-- Handler `request_return` (`src/main.py`, `POST /returns/request/...`),
after the `customer_only` gate. -/
def request_return (order_item_id : Nat) (request_data : ReturnRequestCreate)
    (current_user_obj : User) (now : Nat) (db : Db) : Except HTTPException Db :=
  match db.order_items.find? (fun i => decide (i.id = order_item_id)) with
  | none => .error ⟨404, "Order item not found"⟩
  | some order_item =>
    match db.orders.find? (fun o => decide (o.id = order_item.order_id)) with
    | none => .error ⟨403, "Access denied"⟩
    | some order =>
      if order.user_id ≠ current_user_obj.id then
        .error ⟨403, "Access denied"⟩
      else if order_item.status ≠ "Delivered" then
        .error ⟨400, "Only delivered items can be returned"⟩
      else if strTruthy order_item.return_status ∧ order_item.return_status ≠ some "None" then
        .error ⟨400, "Return already " ++ order_item.return_status.getD "None"⟩
      else if ¬ boolTruthy order_item.is_return_eligible then
        .error ⟨400, "This item is not eligible for return"⟩
      else
        .ok { db with
          order_items := updItem order_item_id
            (fun i => { i with
              return_status := some "ReturnRequested",
              return_reason := some request_data.reason,
              return_notes := request_data.notes,
              return_requested_at := some now })
            db.order_items }

/-- Handler `cancel_return` (`src/main.py`, `PATCH /returns/cancel/...`),
after the `customer_only` gate. -/
def cancel_return (order_item_id : Nat) (current_user_obj : User) (db : Db) :
    Except HTTPException Db :=
  match db.order_items.find? (fun i => decide (i.id = order_item_id)) with
  | none => .error ⟨404, "Order item not found"⟩
  | some order_item =>
    match db.orders.find? (fun o => decide (o.id = order_item.order_id)) with
    | none => .error ⟨403, "Access denied"⟩
    | some order =>
      if order.user_id ≠ current_user_obj.id then
        .error ⟨403, "Access denied"⟩
      else if order_item.return_status ≠ some "ReturnRequested" then
        .error ⟨400, "Can only cancel return requests that are pending"⟩
      else
        .ok { db with
          order_items := updItem order_item_id
            (fun i => { i with
              return_status := some "None",
              return_reason := none,
              return_notes := none,
              return_requested_at := none })
            db.order_items }

/-- Handler `accept_return` (`src/main.py`, `PATCH /seller/returns/.../accept`),
after the `seller_only` gate. -/
def accept_return (order_item_id : Nat) (current_seller : User) (now : Nat)
    (db : Db) : Except HTTPException Db :=
  match db.order_items.find?
      (fun i => decide (i.id = order_item_id ∧ i.seller_id = some current_seller.id)) with
  | none => .error ⟨404, "Return item not found or access denied"⟩
  | some item =>
    if item.return_status ≠ some "ReturnRequested" then
      .error ⟨400, "Cannot accept return with status \x27" ++ item.return_status.getD "None" ++
        "\x27. Only ReturnRequested returns can be accepted."⟩
    else
      .ok { db with
        order_items := updItem order_item_id
          (fun i => { i with
            return_status := some "ReturnAccepted",
            return_processed_at := some now })
          db.order_items }

/-- Handler `reject_return` (`src/main.py`, `PATCH /seller/returns/.../reject`),
after the `seller_only` gate. -/
def reject_return (order_item_id : Nat) (request : ReturnRejectRequest)
    (current_seller : User) (now : Nat) (db : Db) : Except HTTPException Db :=
  match db.order_items.find?
      (fun i => decide (i.id = order_item_id ∧ i.seller_id = some current_seller.id)) with
  | none => .error ⟨404, "Return item not found or access denied"⟩
  | some item =>
    if item.return_status ≠ some "ReturnRequested" then
      .error ⟨400, "Cannot reject return with status \x27" ++ item.return_status.getD "None" ++
        "\x27. Only ReturnRequested returns can be rejected."⟩
    else
      .ok { db with
        order_items := updItem order_item_id
          (fun i => { i with
            return_status := some "ReturnRejected",
            return_notes := request.notes,
            return_processed_at := some now })
          db.order_items }

/-- Handler `mark_return_received` (`src/main.py`,
`PATCH /seller/returns/.../mark-received`), after the `seller_only` gate. -/
def mark_return_received (order_item_id : Nat) (current_seller : User) (now : Nat)
    (db : Db) : Except HTTPException Db :=
  match db.order_items.find?
      (fun i => decide (i.id = order_item_id ∧ i.seller_id = some current_seller.id)) with
  | none => .error ⟨404, "Return item not found or access denied"⟩
  | some item =>
    if item.return_status ≠ some "ReturnAccepted" ∧ item.return_status ≠ some "ReturnInTransit" then
      .error ⟨400, "Cannot mark as received with status \x27" ++ item.return_status.getD "None" ++
        "\x27. Only ReturnAccepted or ReturnInTransit returns can be marked as received."⟩
    else
      .ok { db with
        order_items := updItem order_item_id
          (fun i => { i with
            return_status := some "ReturnReceived",
            return_processed_at := some now })
          db.order_items }

/-- Statuses accepted by the admin order-item override
(`admin_override_order_item_status`, `src/main.py`). -/
def allowed_item_statuses : List String :=
  ["Accepted", "Rejected", "Cancelled", "Shipped", "Delivered"]

/-- Handler `admin_override_order_item_status` (`src/main.py`,
`PATCH /admin/order-items/.../override-status`), after the `admin_only`
gate.  Note: unlike the seller accept/reject handlers it does not call
`update_order_status_from_items`. -/
def admin_override_order_item_status (order_item_id : Nat)
    (request : OverrideOrderItemStatusRequest) (db : Db) :
    Except HTTPException Db :=
  if ¬ request.status ∈ allowed_item_statuses then
    .error ⟨400, "Status must be one of: Accepted, Rejected, Cancelled, Shipped, Delivered"⟩
  else
    match db.order_items.find? (fun i => decide (i.id = order_item_id)) with
    | none => .error ⟨404, "Order item not found"⟩
    | some _ =>
      .ok { db with
        order_items := updItem order_item_id
          (fun i =>
            let i2 := { i with status := request.status }
            if strTruthy request.reason then
              { i2 with rejection_reason := request.reason }
            else if request.status ≠ "Rejected" then
              { i2 with rejection_reason := none }
            else i2)
          db.order_items }

/-- Return statuses accepted by the admin return override
(`admin_override_return_status`, `src/main.py`). -/
def allowed_return_statuses : List String :=
  ["None", "ReturnRequested", "ReturnAccepted", "ReturnRejected",
   "ReturnInTransit", "ReturnReceived", "RefundProcessed"]

/-- Return statuses on which the admin return override stamps
`return_processed_at` (`src/main.py`). -/
def processed_stamp_statuses : List String :=
  ["ReturnAccepted", "ReturnRejected", "ReturnReceived", "RefundProcessed"]

/-- Handler `admin_override_return_status` (`src/main.py`,
`PATCH /admin/returns/.../override-status`), after the `admin_only` gate. -/
def admin_override_return_status (order_item_id : Nat)
    (request : ReturnOverrideRequest) (now : Nat) (db : Db) :
    Except HTTPException Db :=
  if ¬ request.status ∈ allowed_return_statuses then
    .error ⟨400, "Invalid return status. Allowed values: None, ReturnRequested, ReturnAccepted, ReturnRejected, ReturnInTransit, ReturnReceived, RefundProcessed"⟩
  else
    match db.order_items.find? (fun i => decide (i.id = order_item_id)) with
    | none => .error ⟨404, "Return item not found"⟩
    | some _ =>
      .ok { db with
        order_items := updItem order_item_id
          (fun i =>
            let i2 := { i with return_status := some request.status }
            let i3 :=
              if strTruthy request.notes then { i2 with return_notes := request.notes }
              else i2
            if request.status ∈ processed_stamp_statuses then
              { i3 with return_processed_at := some now }
            else i3)
          db.order_items }

/-- Base URL of the backend (`src/main.py`); the environment override is
modelled by its default value, no claim depends on it. -/
def BACKEND_BASE_URL : String := "http://127.0.0.1:8000"

/-- Function `normalize_image_url` (`src/main.py`). -/
def normalize_image_url (image_url : Option String) : Option String :=
  if ¬ strTruthy image_url then none
  else
    let u := image_url.getD ""
    if u.startsWith "http://" ∨ u.startsWith "https://" then some u
    else if u.startsWith "/images" then some u
    else if u.startsWith "/uploads" then some (BACKEND_BASE_URL ++ u)
    else
      let clean_filename := u.dropWhile (· = '/')
      if clean_filename.contains '/' then
        if u.startsWith "/" then some u else some ("/" ++ u)
      else some ("/images/" ++ clean_filename)

/-- Persisted part of `normalize_product_gender` (`src/main.py`) when it runs
before a commit: the gender and image-url columns are rewritten; in the
decoded model of the JSON text columns the serialize/deserialize round-trips
it performs on `sizes`/`colors`/`legacy_variants`/`specifications` are the
identity and are therefore not written out. -/
def normalize_product_gender_row (p : Product) : Product :=
  let p :=
    match p.gender with
    | some g =>
      if g ≠ "" then
        { p with gender := if g.toLower ∈ ["men", "women", "unisex"] then some g.toLower else none }
      else p
    | none => p
  if strTruthy p.image_url then { p with image_url := normalize_image_url p.image_url }
  else p

/-- Request body of the seller product create/update endpoints
(`src/schemas.py`, classes `ProductBase`/`ProductCreate`); the pydantic
gender normalizer has already run, and the JSON payload fields are carried
decoded. -/
structure ProductCreate where
  name : String
  description : Option String := none
  image_url : Option String := none
  price : Int
  discounted_price : Option Int := none
  gender : Option String := none
  category : Option String := none
  sizes : List String := []
  colors : List String := []
  variants : Option (List (String × String)) := none
  size_fit : Option String := none
  material_care : Option String := none
  specifications : List (String × String) := []
  deriving Repr, DecidableEq

/-- Request body of `PATCH /admin/products/...` (`src/schemas.py`, class
`ProductUpdate`); `none` marks a field absent from the request
(`model_dump(exclude_unset=True)`); explicitly-null fields are not
modelled, no claim depends on them. -/
structure ProductUpdate where
  name : Option String := none
  description : Option String := none
  image_url : Option String := none
  price : Option Int := none
  discounted_price : Option Int := none
  gender : Option String := none
  category : Option String := none
  deriving Repr, DecidableEq

/-- Request body of the variant update endpoints (`src/schemas.py`, class
`VariantUpdate`); `none` marks a field absent from the request
(`model_dump(exclude_unset=True)`); explicitly-null fields are not
modelled, no claim depends on them. -/
structure VariantUpdate where
  size : Option String := none
  color : Option String := none
  image_url : Option String := none
  price : Option Int := none
  stock : Option Int := none
  deriving Repr, DecidableEq

/-- Handler `update_seller_product` (`src/main.py`,
`PATCH /seller/products/update/...`), after the `seller_only` gate: every
`ProductCreate` field is written onto the row (empty JSON collections are
stored as NULL, mirroring the `len(...) > 0` branches), and verification is
reset to Pending. -/
def update_seller_product (product_id : Nat) (product : ProductCreate)
    (current_seller : User) (db : Db) : Except HTTPException Db :=
  match db.products.find?
      (fun p => decide (p.id = product_id ∧ p.seller_id = some current_seller.id)) with
  | none => .error ⟨404, "Product not found or access denied"⟩
  | some _ =>
    .ok { db with
      products := db.products.map fun p =>
        if p.id = product_id then
          { p with
            name := product.name,
            description := product.description,
            image_url := product.image_url,
            price := product.price,
            discounted_price := product.discounted_price,
            gender := product.gender,
            category := product.category,
            sizes := if product.sizes ≠ [] then some product.sizes else none,
            colors := if product.colors ≠ [] then some product.colors else none,
            legacy_variants :=
              match product.variants with
              | some d => if d ≠ [] then some d else none
              | none => none,
            size_fit := product.size_fit,
            material_care := product.material_care,
            specifications :=
              if product.specifications ≠ [] then some product.specifications else none,
            is_verified := some false,
            verification_status := some "Pending" }
        else p }

/-- Handler `update_product_variant` (`src/main.py`,
`PATCH /seller/variants/...`), after the `seller_only` gate. -/
def update_product_variant (variant_id : Nat) (variant : VariantUpdate)
    (current_seller : User) (now : Nat) (db : Db) : Except HTTPException Db :=
  match db.product_variants.find? (fun v => decide (v.id = variant_id)) with
  | none => .error ⟨404, "Variant not found"⟩
  | some existing_variant =>
    match db.products.find?
        (fun p => decide (p.id = existing_variant.product_id ∧
          p.seller_id = some current_seller.id)) with
    | none => .error ⟨404, "Variant not found or access denied"⟩
    | some _ =>
      .ok { db with
        product_variants := db.product_variants.map fun v =>
          if v.id = variant_id then
            { v with
              size := match variant.size with | some s => some s | none => v.size,
              color := match variant.color with | some c => some c | none => v.color,
              image_url := match variant.image_url with | some u => some u | none => v.image_url,
              price := match variant.price with | some pr => some pr | none => v.price,
              stock := match variant.stock with | some st => st | none => v.stock,
              updated_at := now }
          else v }

/-- Handler `delete_product_variant` (`src/main.py`,
`DELETE /seller/variants/...`), after the `seller_only` gate. -/
def delete_product_variant (variant_id : Nat) (current_seller : User) (db : Db) :
    Except HTTPException Db :=
  match db.product_variants.find? (fun v => decide (v.id = variant_id)) with
  | none => .error ⟨404, "Variant not found"⟩
  | some variant =>
    match db.products.find?
        (fun p => decide (p.id = variant.product_id ∧
          p.seller_id = some current_seller.id)) with
    | none => .error ⟨404, "Variant not found or access denied"⟩
    | some _ =>
      .ok { db with
        product_variants := db.product_variants.filter fun v => decide (¬ v.id = variant_id) }

/-- Handler `delete_seller_product` (`src/main.py`,
`DELETE /seller/products/delete/...`), after the `seller_only` gate: removes
the product row and the cart items referencing it. -/
def delete_seller_product (product_id : Nat) (current_seller : User) (db : Db) :
    Except HTTPException Db :=
  match db.products.find?
      (fun p => decide (p.id = product_id ∧ p.seller_id = some current_seller.id)) with
  | none => .error ⟨404, "Product not found or access denied"⟩
  | some _ =>
    .ok { db with
      cart_items := db.cart_items.filter fun c => decide (¬ c.product_id = product_id),
      products := db.products.filter fun p => decide (¬ p.id = product_id) }

/-- Handler `update_admin_product` (`src/main.py`,
`PATCH /admin/products/...`), after the `admin_only` gate: the provided
fields are written onto the row, and when gender was provided the row is
re-normalized before the commit. -/
def update_admin_product (product_id : Nat) (product_update : ProductUpdate)
    (db : Db) : Except HTTPException Db :=
  match db.products.find? (fun p => decide (p.id = product_id)) with
  | none => .error ⟨404, "Product not found"⟩
  | some _ =>
    .ok { db with
      products := db.products.map fun p =>
        if p.id = product_id then
          let p2 := { p with
            name := match product_update.name with | some v => v | none => p.name,
            description := match product_update.description with
              | some v => some v | none => p.description,
            image_url := match product_update.image_url with
              | some v => some v | none => p.image_url,
            price := match product_update.price with | some v => v | none => p.price,
            discounted_price := match product_update.discounted_price with
              | some v => some v | none => p.discounted_price,
            gender := match product_update.gender with
              | some v => some v | none => p.gender,
            category := match product_update.category with
              | some v => some v | none => p.category }
          if product_update.gender.isSome then normalize_product_gender_row p2 else p2
        else p }

/-- Handler `delete_admin_product` (`src/main.py`,
`DELETE /admin/products/...`), after the `admin_only` gate: deletes the
product, its variants, cart/wishlist items and reviews referencing it, and
nulls `product_id` on order items (order history is preserved). -/
def delete_admin_product (product_id : Nat) (db : Db) : Except HTTPException Db :=
  match db.products.find? (fun p => decide (p.id = product_id)) with
  | none => .error ⟨404, "Product not found"⟩
  | some _ =>
    .ok { db with
      product_variants := db.product_variants.filter fun v =>
        decide (¬ v.product_id = product_id),
      cart_items := db.cart_items.filter fun c => decide (¬ c.product_id = product_id),
      order_items := db.order_items.map fun i =>
        if i.product_id = some product_id then { i with product_id := none } else i,
      wishlist_items := db.wishlist_items.filter fun w =>
        decide (¬ w.product_id = product_id),
      reviews := db.reviews.filter fun r => decide (¬ r.product_id = product_id),
      products := db.products.filter fun p => decide (¬ p.id = product_id) }

/-- Handler `update_admin_product_variant` (`src/main.py`,
`PATCH /admin/products/.../variant/...`), after the `admin_only` gate. -/
def update_admin_product_variant (product_id : Nat) (variant_id : Nat)
    (variant : VariantUpdate) (now : Nat) (db : Db) : Except HTTPException Db :=
  match db.products.find? (fun p => decide (p.id = product_id)) with
  | none => .error ⟨404, "Product not found"⟩
  | some _ =>
    match db.product_variants.find?
        (fun v => decide (v.id = variant_id ∧ v.product_id = product_id)) with
    | none => .error ⟨404, "Variant not found"⟩
    | some _ =>
      .ok { db with
        product_variants := db.product_variants.map fun v =>
          if v.id = variant_id then
            { v with
              size := match variant.size with | some s => some s | none => v.size,
              color := match variant.color with | some c => some c | none => v.color,
              image_url := match variant.image_url with | some u => some u | none => v.image_url,
              price := match variant.price with | some pr => some pr | none => v.price,
              stock := match variant.stock with | some st => st | none => v.stock,
              updated_at := now }
          else v }

/-- Handler `delete_admin_product_variant` (`src/main.py`,
`DELETE /admin/products/.../variant/...`), after the `admin_only` gate:
nulls `variant_id` on order items referencing the variant, removes cart
items referencing it, and deletes the variant row. -/
def delete_admin_product_variant (product_id : Nat) (variant_id : Nat) (db : Db) :
    Except HTTPException Db :=
  match db.products.find? (fun p => decide (p.id = product_id)) with
  | none => .error ⟨404, "Product not found"⟩
  | some _ =>
    match db.product_variants.find?
        (fun v => decide (v.id = variant_id ∧ v.product_id = product_id)) with
    | none => .error ⟨404, "Variant not found"⟩
    | some _ =>
      .ok { db with
        order_items := db.order_items.map fun i =>
          if i.variant_id = some variant_id then { i with variant_id := none } else i,
        cart_items := db.cart_items.filter fun c => decide (¬ c.variant_id = some variant_id),
        product_variants := db.product_variants.filter fun v => decide (¬ v.id = variant_id) }

/-- Route `PATCH /seller/orders/.../accept` including its
`Depends(seller_only)` gate. -/
def accept_order_item_endpoint (order_item_id : Nat) (u : User) (db : Db) :
    Except HTTPException Db :=
  (seller_only u).bind fun s => accept_order_item order_item_id s db

/-- Route `PATCH /seller/orders/.../reject` including its
`Depends(seller_only)` gate. -/
def reject_order_item_endpoint (order_item_id : Nat) (request : RejectOrderItemRequest)
    (u : User) (db : Db) : Except HTTPException Db :=
  (seller_only u).bind fun s => reject_order_item order_item_id request s db

/-- Route `PATCH /seller/returns/.../accept` including its
`Depends(seller_only)` gate. -/
def accept_return_endpoint (order_item_id : Nat) (u : User) (now : Nat) (db : Db) :
    Except HTTPException Db :=
  (seller_only u).bind fun s => accept_return order_item_id s now db

/-- Route `PATCH /seller/returns/.../reject` including its
`Depends(seller_only)` gate. -/
def reject_return_endpoint (order_item_id : Nat) (request : ReturnRejectRequest)
    (u : User) (now : Nat) (db : Db) : Except HTTPException Db :=
  (seller_only u).bind fun s => reject_return order_item_id request s now db

/-- Route `PATCH /seller/returns/.../mark-received` including its
`Depends(seller_only)` gate. -/
def mark_return_received_endpoint (order_item_id : Nat) (u : User) (now : Nat)
    (db : Db) : Except HTTPException Db :=
  (seller_only u).bind fun s => mark_return_received order_item_id s now db

/-- One mutating operation of the embedded API, together with its
already-authenticated caller and request payload. -/
inductive ApiOp where
  | sellerAccept (order_item_id : Nat) (seller : User)
  | sellerReject (order_item_id : Nat) (request : RejectOrderItemRequest) (seller : User)
  | customerRequestReturn (order_item_id : Nat) (request : ReturnRequestCreate)
      (customer : User) (now : Nat)
  | customerCancelReturn (order_item_id : Nat) (customer : User)
  | sellerAcceptReturn (order_item_id : Nat) (seller : User) (now : Nat)
  | sellerRejectReturn (order_item_id : Nat) (request : ReturnRejectRequest)
      (seller : User) (now : Nat)
  | sellerMarkReceived (order_item_id : Nat) (seller : User) (now : Nat)
  | adminOverrideItemStatus (order_item_id : Nat) (request : OverrideOrderItemStatusRequest)
  | adminOverrideReturnStatus (order_item_id : Nat) (request : ReturnOverrideRequest) (now : Nat)
  | sellerUpdateProduct (product_id : Nat) (product : ProductCreate) (seller : User)
  | sellerUpdateVariant (variant_id : Nat) (variant : VariantUpdate) (seller : User) (now : Nat)
  | sellerDeleteVariant (variant_id : Nat) (seller : User)
  | sellerDeleteProduct (product_id : Nat) (seller : User)
  | adminUpdateProduct (product_id : Nat) (product_update : ProductUpdate)
  | adminDeleteProduct (product_id : Nat)
  | adminUpdateVariant (product_id : Nat) (variant_id : Nat) (variant : VariantUpdate) (now : Nat)
  | adminDeleteVariant (product_id : Nat) (variant_id : Nat)
  deriving Repr

/-- Effect of one API operation on the store: the committed database on
success, the unchanged one when the handler raised. -/
def applyApiOp (op : ApiOp) (db : Db) : Db :=
  match op with
  | .sellerAccept iid s => runHandler db (accept_order_item iid s db)
  | .sellerReject iid req s => runHandler db (reject_order_item iid req s db)
  | .customerRequestReturn iid req c now => runHandler db (request_return iid req c now db)
  | .customerCancelReturn iid c => runHandler db (cancel_return iid c db)
  | .sellerAcceptReturn iid s now => runHandler db (accept_return iid s now db)
  | .sellerRejectReturn iid req s now => runHandler db (reject_return iid req s now db)
  | .sellerMarkReceived iid s now => runHandler db (mark_return_received iid s now db)
  | .adminOverrideItemStatus iid req => runHandler db (admin_override_order_item_status iid req db)
  | .adminOverrideReturnStatus iid req now =>
    runHandler db (admin_override_return_status iid req now db)
  | .sellerUpdateProduct pid p s => runHandler db (update_seller_product pid p s db)
  | .sellerUpdateVariant vid v s now => runHandler db (update_product_variant vid v s now db)
  | .sellerDeleteVariant vid s => runHandler db (delete_product_variant vid s db)
  | .sellerDeleteProduct pid s => runHandler db (delete_seller_product pid s db)
  | .adminUpdateProduct pid p => runHandler db (update_admin_product pid p db)
  | .adminDeleteProduct pid => runHandler db (delete_admin_product pid db)
  | .adminUpdateVariant pid vid v now => runHandler db (update_admin_product_variant pid vid v now db)
  | .adminDeleteVariant pid vid => runHandler db (delete_admin_product_variant pid vid db)

/-- Whether the operation is one of the two admin escape-hatch overrides on
order items. -/
def ApiOp.isAdminOverride : ApiOp → Bool
  | .adminOverrideItemStatus _ _ => true
  | .adminOverrideReturnStatus _ _ _ => true
  | _ => false

/-- The checkout-time snapshot portion of an order-item row, keyed by its
primary key: purchase price, variant size/color/image and seller routing id. -/
def snapshotView (i : OrderItem) :
    Nat × Int × Option String × Option String × Option String × Option Nat :=
  (i.id, i.price, i.variant_size, i.variant_color, i.variant_image_url, i.seller_id)

/-- Well-formedness of the store: order-item primary keys are unique. -/
def uniqueItemIds (db : Db) : Prop :=
  db.order_items.Pairwise fun a b => a.id ≠ b.id

/-- The delivered-before-return invariant: an item whose return sub-state has
been engaged (neither NULL nor the string "None") has fulfillment status
"Delivered". -/
def delivered_before_return (db : Db) : Prop :=
  ∀ i ∈ db.order_items, i.return_status ≠ some "None" → i.return_status ≠ none →
    i.status = "Delivered"

/-- Two rows of a table with unique primary keys that share an id are the
same row. -/
theorem eq_of_mem_unique {items : List OrderItem}
    (huniq : items.Pairwise fun a b => a.id ≠ b.id)
    {i j : OrderItem} (hi : i ∈ items) (hj : j ∈ items) (hij : i.id = j.id) :
    i = j := by
  induction items with
  | nil => cases hi
  | cons a t ih =>
    rcases List.pairwise_cons.mp huniq with ⟨ha, ht⟩
    rcases List.mem_cons.mp hi with hi' | hi' <;>
      rcases List.mem_cons.mp hj with hj' | hj'
    · rw [hi', hj']
    · exact absurd (hi' ▸ hij) (ha j hj')
    · exact absurd (hj' ▸ hij).symm (ha i hi')
    · exact ih ht hi' hj'

/-- A row whose id differs from the updated one survives `updItem`
unchanged. -/
theorem mem_updItem_of_ne {items : List OrderItem} {iid : Nat}
    {f : OrderItem → OrderItem} {j : OrderItem} (hj : j ∈ items) (hne : j.id ≠ iid) :
    j ∈ updItem iid f items := by
  refine List.mem_map.mpr ⟨j, hj, ?_⟩
  simp [hne]

/-- `updItem` preserves uniqueness of primary keys provided the field update
does not change the key. -/
theorem updItem_pairwise {items : List OrderItem} {iid : Nat}
    {f : OrderItem → OrderItem} (hf : ∀ i, (f i).id = i.id)
    (huniq : items.Pairwise fun a b => a.id ≠ b.id) :
    (updItem iid f items).Pairwise fun a b => a.id ≠ b.id := by
  refine List.Pairwise.map _ ?_ huniq
  intro a b hab
  by_cases ha : a.id = iid <;> by_cases hb : b.id = iid
  · exact absurd (ha.trans hb.symm) hab
  · simp only [updItem, if_pos ha, if_neg hb, hf]
    exact fun hcon => hb ((ha.symm.trans hcon).symm ▸ rfl)
  · simp only [updItem, if_neg ha, if_pos hb, hf]
    exact fun hcon => ha (hcon.trans hb)
  · simpa [ha, hb] using hab

/-- Lookup by primary key after `updItem`: with unique keys the updated row
is found. -/
theorem find?_updItem {items : List OrderItem} {iid : Nat}
    {f : OrderItem → OrderItem} {item : OrderItem}
    (huniq : items.Pairwise fun a b => a.id ≠ b.id)
    (hmem : item ∈ items) (hid : item.id = iid) (hf : ∀ i, (f i).id = i.id) :
    (updItem iid f items).find? (fun i => decide (i.id = iid)) = some (f item) := by
  induction items with
  | nil => cases hmem
  | cons a t ih =>
    rcases List.pairwise_cons.mp huniq with ⟨ha, ht⟩
    rcases List.mem_cons.mp hmem with h | h
    · subst h
      simp [updItem, List.find?, hid, hf]
    · have hane : a.id ≠ iid := fun hcon => ha item h (hcon.trans hid.symm)
      have := ih ht h
      simpa [updItem, List.find?, hane] using this

/-- `update_order_status_from_items` writes only the orders table. -/
theorem update_order_status_frame (oid : Nat) (db : Db) :
    (update_order_status_from_items oid db).order_items = db.order_items ∧
    (update_order_status_from_items oid db).products = db.products ∧
    (update_order_status_from_items oid db).product_variants = db.product_variants ∧
    (update_order_status_from_items oid db).users = db.users := by
  unfold update_order_status_from_items
  split
  · exact ⟨rfl, rfl, rfl, rfl⟩
  · dsimp only
    split
    · exact ⟨rfl, rfl, rfl, rfl⟩
    · exact ⟨rfl, rfl, rfl, rfl⟩

/-- After `update_order_status_from_items`, every order row carrying the
recomputed id holds the derived fold of its items, provided the order has at
least one item. -/
theorem update_order_status_orders (oid : Nat) (db : Db)
    (hne : db.order_items.filter (fun i => decide (i.order_id = oid)) ≠ []) :
    ∀ o ∈ (update_order_status_from_items oid db).orders, o.id = oid →
      o.status = derive_order_status
        (db.order_items.filter fun i => decide (i.order_id = oid)) := by
  intro o ho hid
  unfold update_order_status_from_items at ho
  rcases hfo : db.orders.find? (fun o2 => decide (o2.id = oid)) with _ | o2
  · rw [hfo] at ho
    have := List.find?_eq_none.mp hfo o ho
    simp [hid] at this
  · rw [hfo] at ho
    dsimp only at ho
    rw [if_neg hne] at ho
    rcases List.mem_map.mp ho with ⟨o0, _, heq⟩
    by_cases h0 : o0.id = oid
    · rw [if_pos h0] at heq
      rw [← heq]
    · rw [if_neg h0] at heq
      rw [← heq] at hid
      exact absurd hid h0

/-- Mapping a snapshot-preserving row update across a table leaves the
snapshot view of the table unchanged. -/
theorem map_snapshot_of_preserving (g : OrderItem → OrderItem)
    (h : ∀ i, snapshotView (g i) = snapshotView i) :
    ∀ items : List OrderItem,
      (items.map g).map snapshotView = items.map snapshotView := by
  intro items
  induction items with
  | nil => rfl
  | cons a t ih => simp [List.map_cons, h, ih]

/-- C2: for every order item the seller sees, accept succeeds iff the current
status is "Pending" or "Rejected"; on success the status becomes "Accepted"
and the rejection reason is cleared while every other row is untouched; from
any other status the handler raises a 400 error naming the actual status and
the database is unchanged. -/
theorem accept_order_item_spec
    (db : Db) (u : User) (iid : Nat) (item : OrderItem)
    (huniq : uniqueItemIds db)
    (hfind : db.order_items.find?
      (fun i => decide (i.id = iid ∧ i.seller_id = some u.id)) = some item) :
    (item.status = "Pending" ∨ item.status = "Rejected" →
      ∃ db', accept_order_item iid u db = .ok db' ∧
        itemById db' iid = some { item with status := "Accepted", rejection_reason := none } ∧
        ∀ j ∈ db.order_items, j.id ≠ iid → j ∈ db'.order_items) ∧
    (¬ (item.status = "Pending" ∨ item.status = "Rejected") →
      accept_order_item iid u db = .error ⟨400,
        "Cannot accept order item with status \x27" ++ item.status ++
          "\x27. Only Pending or Rejected items can be accepted."⟩ ∧
      runHandler db (accept_order_item iid u db) = db) := by
  have hmem : item ∈ db.order_items := List.mem_of_find?_eq_some hfind
  have hpred := List.find?_some hfind
  rw [decide_eq_true_eq] at hpred
  obtain ⟨hid, -⟩ := hpred
  constructor
  · intro hst
    have hcond : ¬ (item.status ≠ "Pending" ∧ item.status ≠ "Rejected") := by
      rcases hst with h | h <;> simp [h]
    have heq : accept_order_item iid u db = .ok (update_order_status_from_items item.order_id
        { db with order_items := updItem iid (fun i => { i with status := "Accepted", rejection_reason := none }) db.order_items }) := by
      unfold accept_order_item
      rw [hfind]
      exact if_neg hcond
    refine ⟨_, heq, ?_, ?_⟩
    · unfold itemById
      rw [(update_order_status_frame item.order_id _).1]
      exact find?_updItem huniq hmem hid (fun i => rfl)
    · intro j hj hne
      rw [(update_order_status_frame item.order_id _).1]
      exact mem_updItem_of_ne hj hne
  · intro hst
    have hcond : item.status ≠ "Pending" ∧ item.status ≠ "Rejected" := not_or.mp hst
    have heq : accept_order_item iid u db = .error ⟨400,
        "Cannot accept order item with status \x27" ++ item.status ++
          "\x27. Only Pending or Rejected items can be accepted."⟩ := by
      unfold accept_order_item
      rw [hfind]
      exact if_pos hcond
    exact ⟨heq, by rw [heq]; rfl⟩

/-- Concrete pending order item owned by seller 2, used to witness the
accept/reject specifications. -/
def itemW2 : OrderItem :=
  { id := 1, order_id := 1, product_id := some 1, price := 100, seller_id := some 2 }

/-- Concrete approved seller 2. -/
def sellerW2 : User :=
  { id := 2, username := "sel2", email := "sel2@example.com", role := "seller",
    is_active := some true, is_approved := some true }

/-- Concrete one-order, one-item store. -/
def dbW2 : Db :=
  { orders := [{ id := 1, user_id := 1 }], order_items := [itemW2] }

/-- Witness for C2: accepting the concrete pending item succeeds and clears
the rejection reason. -/
theorem accept_order_item_spec_witness :
    ∃ db', accept_order_item 1 sellerW2 dbW2 = .ok db' ∧
      itemById db' 1 = some { itemW2 with status := "Accepted", rejection_reason := none } ∧
      ∀ j ∈ dbW2.order_items, j.id ≠ 1 → j ∈ db'.order_items :=
  (accept_order_item_spec dbW2 sellerW2 1 itemW2
    (by simp [uniqueItemIds, dbW2]) rfl).1 (Or.inl rfl)

/-- C3: for every order item the seller sees, reject succeeds iff the current
status is "Pending" or "Accepted"; on success the status becomes "Rejected"
and the supplied reason is stored verbatim while every other row is
untouched; from any other status the handler raises a 400 error naming the
actual status and the database is unchanged. -/
theorem reject_order_item_spec
    (db : Db) (u : User) (iid : Nat) (request : RejectOrderItemRequest) (item : OrderItem)
    (huniq : uniqueItemIds db)
    (hfind : db.order_items.find?
      (fun i => decide (i.id = iid ∧ i.seller_id = some u.id)) = some item) :
    (item.status = "Pending" ∨ item.status = "Accepted" →
      ∃ db', reject_order_item iid request u db = .ok db' ∧
        itemById db' iid = some { item with status := "Rejected", rejection_reason := request.reason } ∧
        ∀ j ∈ db.order_items, j.id ≠ iid → j ∈ db'.order_items) ∧
    (¬ (item.status = "Pending" ∨ item.status = "Accepted") →
      reject_order_item iid request u db = .error ⟨400,
        "Cannot reject order item with status \x27" ++ item.status ++
          "\x27. Only Pending or Accepted items can be rejected."⟩ ∧
      runHandler db (reject_order_item iid request u db) = db) := by
  have hmem : item ∈ db.order_items := List.mem_of_find?_eq_some hfind
  have hpred := List.find?_some hfind
  rw [decide_eq_true_eq] at hpred
  obtain ⟨hid, -⟩ := hpred
  constructor
  · intro hst
    have hcond : ¬ (item.status ≠ "Pending" ∧ item.status ≠ "Accepted") := by
      rcases hst with h | h <;> simp [h]
    have heq : reject_order_item iid request u db = .ok (update_order_status_from_items item.order_id
        { db with order_items := updItem iid (fun i => { i with status := "Rejected", rejection_reason := request.reason }) db.order_items }) := by
      unfold reject_order_item
      rw [hfind]
      exact if_neg hcond
    refine ⟨_, heq, ?_, ?_⟩
    · unfold itemById
      rw [(update_order_status_frame item.order_id _).1]
      exact find?_updItem huniq hmem hid (fun i => rfl)
    · intro j hj hne
      rw [(update_order_status_frame item.order_id _).1]
      exact mem_updItem_of_ne hj hne
  · intro hst
    have hcond : item.status ≠ "Pending" ∧ item.status ≠ "Accepted" := not_or.mp hst
    have heq : reject_order_item iid request u db = .error ⟨400,
        "Cannot reject order item with status \x27" ++ item.status ++
          "\x27. Only Pending or Accepted items can be rejected."⟩ := by
      unfold reject_order_item
      rw [hfind]
      exact if_pos hcond
    exact ⟨heq, by rw [heq]; rfl⟩

/-- Witness for C3: rejecting the concrete pending item with reason
"out of stock" succeeds and stores the reason verbatim. -/
theorem reject_order_item_spec_witness :
    ∃ db', reject_order_item 1 { reason := some "out of stock" } sellerW2 dbW2 = .ok db' ∧
      itemById db' 1 = some { itemW2 with status := "Rejected", rejection_reason := some "out of stock" } ∧
      ∀ j ∈ dbW2.order_items, j.id ≠ 1 → j ∈ db'.order_items :=
  (reject_order_item_spec dbW2 sellerW2 1 { reason := some "out of stock" } itemW2
    (by simp [uniqueItemIds, dbW2]) rfl).1 (Or.inl rfl)

/-- C1 (amended): after a successful seller accept or seller reject, every
order row of the mutated item's order holds the pure fold of its items'
statuses; and the fold is exactly the claimed one — "Completed" iff all
items are "Delivered", "Cancelled" iff all are "Rejected", "Active"
otherwise (for a nonempty item set).  The admin item-status override does
not trigger this recomputation (see the counterexample). -/
theorem seller_ops_refold_order_status :
    (∀ (db : Db) (u : User) (iid : Nat) (item : OrderItem) (db' : Db),
      db.order_items.find? (fun i => decide (i.id = iid ∧ i.seller_id = some u.id)) = some item →
      accept_order_item iid u db = .ok db' →
      ∀ o ∈ db'.orders, o.id = item.order_id →
        o.status = derive_order_status (db'.order_items.filter fun i => decide (i.order_id = item.order_id))) ∧
    (∀ (db : Db) (u : User) (iid : Nat) (request : RejectOrderItemRequest) (item : OrderItem) (db' : Db),
      db.order_items.find? (fun i => decide (i.id = iid ∧ i.seller_id = some u.id)) = some item →
      reject_order_item iid request u db = .ok db' →
      ∀ o ∈ db'.orders, o.id = item.order_id →
        o.status = derive_order_status (db'.order_items.filter fun i => decide (i.order_id = item.order_id))) ∧
    (∀ L : List OrderItem, L ≠ [] →
      (derive_order_status L = "Completed" ↔ ∀ i ∈ L, i.status = "Delivered") ∧
      (derive_order_status L = "Cancelled" ↔ ∀ i ∈ L, i.status = "Rejected") ∧
      (derive_order_status L = "Active" ↔
        ¬ (∀ i ∈ L, i.status = "Delivered") ∧ ¬ (∀ i ∈ L, i.status = "Rejected"))) := by
  refine ⟨?_, ?_, ?_⟩
  · intro db u iid item db' hfind hok o ho hid
    have hmem := List.mem_of_find?_eq_some hfind
    have hpred := List.find?_some hfind
    rw [decide_eq_true_eq] at hpred
    obtain ⟨hiid, -⟩ := hpred
    by_cases hcond : item.status ≠ "Pending" ∧ item.status ≠ "Rejected"
    · have heq : accept_order_item iid u db = .error ⟨400,
          "Cannot accept order item with status \x27" ++ item.status ++
            "\x27. Only Pending or Rejected items can be accepted."⟩ := by
        unfold accept_order_item
        rw [hfind]
        exact if_pos hcond
      rw [heq] at hok
      cases hok
    · have heq : accept_order_item iid u db = .ok (update_order_status_from_items item.order_id
          { db with order_items := updItem iid (fun i => { i with status := "Accepted", rejection_reason := none }) db.order_items }) := by
        unfold accept_order_item
        rw [hfind]
        exact if_neg hcond
      rw [heq] at hok
      injection hok with hok
      subst hok
      have hupd : ({ item with status := "Accepted", rejection_reason := none } : OrderItem) ∈
          updItem iid (fun i => { i with status := "Accepted", rejection_reason := none }) db.order_items :=
        List.mem_map.mpr ⟨item, hmem, by rw [if_pos hiid]⟩
      have hne : (updItem iid (fun i => { i with status := "Accepted", rejection_reason := none }) db.order_items).filter
          (fun i => decide (i.order_id = item.order_id)) ≠ [] :=
        List.ne_nil_of_mem (List.mem_filter.mpr ⟨hupd, by simp⟩)
      have hres := update_order_status_orders item.order_id
        { db with order_items := updItem iid (fun i => { i with status := "Accepted", rejection_reason := none }) db.order_items }
        hne o ho hid
      rw [hres, (update_order_status_frame item.order_id _).1]
  · intro db u iid request item db' hfind hok o ho hid
    have hmem := List.mem_of_find?_eq_some hfind
    have hpred := List.find?_some hfind
    rw [decide_eq_true_eq] at hpred
    obtain ⟨hiid, -⟩ := hpred
    by_cases hcond : item.status ≠ "Pending" ∧ item.status ≠ "Accepted"
    · have heq : reject_order_item iid request u db = .error ⟨400,
          "Cannot reject order item with status \x27" ++ item.status ++
            "\x27. Only Pending or Accepted items can be rejected."⟩ := by
        unfold reject_order_item
        rw [hfind]
        exact if_pos hcond
      rw [heq] at hok
      cases hok
    · have heq : reject_order_item iid request u db = .ok (update_order_status_from_items item.order_id
          { db with order_items := updItem iid (fun i => { i with status := "Rejected", rejection_reason := request.reason }) db.order_items }) := by
        unfold reject_order_item
        rw [hfind]
        exact if_neg hcond
      rw [heq] at hok
      injection hok with hok
      subst hok
      have hupd : ({ item with status := "Rejected", rejection_reason := request.reason } : OrderItem) ∈
          updItem iid (fun i => { i with status := "Rejected", rejection_reason := request.reason }) db.order_items :=
        List.mem_map.mpr ⟨item, hmem, by rw [if_pos hiid]⟩
      have hne : (updItem iid (fun i => { i with status := "Rejected", rejection_reason := request.reason }) db.order_items).filter
          (fun i => decide (i.order_id = item.order_id)) ≠ [] :=
        List.ne_nil_of_mem (List.mem_filter.mpr ⟨hupd, by simp⟩)
      have hres := update_order_status_orders item.order_id
        { db with order_items := updItem iid (fun i => { i with status := "Rejected", rejection_reason := request.reason }) db.order_items }
        hne o ho hid
      rw [hres, (update_order_status_frame item.order_id _).1]
  · intro L hL
    obtain ⟨w, hw⟩ := List.exists_mem_of_ne_nil L hL
    have hD : ((L.map fun i => i.status).all fun s => decide (s = "Delivered")) = true ↔
        ∀ i ∈ L, i.status = "Delivered" := by
      simp [List.all_eq_true]
    have hR : ((L.map fun i => i.status).all fun s => decide (s = "Rejected")) = true ↔
        ∀ i ∈ L, i.status = "Rejected" := by
      simp [List.all_eq_true]
    by_cases h1 : ∀ i ∈ L, i.status = "Delivered" <;>
      by_cases h2 : ∀ i ∈ L, i.status = "Rejected"
    · exact absurd ((h1 w hw).symm.trans (h2 w hw)) (by decide)
    · have hval : derive_order_status L = "Completed" := by
        dsimp only [derive_order_status]
        rw [if_pos (hD.mpr h1)]
      rw [hval]
      exact ⟨⟨fun _ => h1, fun _ => rfl⟩,
        ⟨fun hc => absurd hc (by decide), fun hall => absurd hall h2⟩,
        ⟨fun hc => absurd hc (by decide), fun hc => absurd h1 hc.1⟩⟩
    · have hDf : ¬ ((L.map fun i => i.status).all fun s => decide (s = "Delivered")) = true :=
        fun hc => h1 (hD.mp hc)
      have hval : derive_order_status L = "Cancelled" := by
        dsimp only [derive_order_status]
        rw [if_neg hDf, if_pos (hR.mpr h2)]
      rw [hval]
      exact ⟨⟨fun hc => absurd hc (by decide), fun hall => absurd hall h1⟩,
        ⟨fun _ => h2, fun _ => rfl⟩,
        ⟨fun hc => absurd hc (by decide), fun hc => absurd h2 hc.2⟩⟩
    · have hDf : ¬ ((L.map fun i => i.status).all fun s => decide (s = "Delivered")) = true :=
        fun hc => h1 (hD.mp hc)
      have hRf : ¬ ((L.map fun i => i.status).all fun s => decide (s = "Rejected")) = true :=
        fun hc => h2 (hR.mp hc)
      have hval : derive_order_status L = "Active" := by
        dsimp only [derive_order_status]
        rw [if_neg hDf, if_neg hRf]
      rw [hval]
      exact ⟨⟨fun hc => absurd hc (by decide), fun hall => absurd hall h1⟩,
        ⟨fun hc => absurd hc (by decide), fun hall => absurd hall h2⟩,
        ⟨fun _ => ⟨h1, h2⟩, fun _ => rfl⟩⟩

/-- Witness for C1 (amended): accepting the concrete pending item recomputes
its order's status to the derived fold. -/
theorem seller_ops_refold_order_status_witness :
    ∀ o ∈ (runHandler dbW2 (accept_order_item 1 sellerW2 dbW2)).orders, o.id = 1 →
      o.status = derive_order_status
        ((runHandler dbW2 (accept_order_item 1 sellerW2 dbW2)).order_items.filter
          fun i => decide (i.order_id = 1)) :=
  seller_ops_refold_order_status.1 dbW2 sellerW2 1 itemW2
    (runHandler dbW2 (accept_order_item 1 sellerW2 dbW2)) rfl rfl

/-- Concrete one-order, one-item store whose only item is "Pending", used to
refute the admin-override part of C1. -/
def dbC1 : Db :=
  { orders := [{ id := 1, user_id := 1 }],
    order_items := [{ id := 1, order_id := 1, product_id := some 1, price := 100, seller_id := some 2 }] }

/-- Counterexample to C1 as stated: the admin override sets the only item of
order 1 to "Delivered" and succeeds, the claimed fold of the resulting items
is "Completed", yet the order's aggregate status is left at "Active" —
`admin_override_order_item_status` never recomputes it. -/
theorem admin_override_skips_order_refold_cex :
    handlerOk (admin_override_order_item_status 1 { status := "Delivered" } dbC1) = true ∧
    ((runHandler dbC1 (admin_override_order_item_status 1 { status := "Delivered" } dbC1)).order_items.map
      fun i => i.status) = ["Delivered"] ∧
    derive_order_status
      (runHandler dbC1 (admin_override_order_item_status 1 { status := "Delivered" } dbC1)).order_items = "Completed" ∧
    ((runHandler dbC1 (admin_override_order_item_status 1 { status := "Delivered" } dbC1)).orders.map
      fun o => o.status) = ["Active"] ∧
    ("Active" : String) ≠ "Completed" := by
  refine ⟨rfl, rfl, rfl, rfl, by decide⟩

/-- C6 (amended): when the seller-scoped lookup finds no row — the item does
not exist or belongs to another seller, indistinguishably — both accept and
reject fail with the uniform 403 "Order item not found or access denied"
response and change no state.  (The claim's HTTP 404 is wrong: the handlers
raise 403; the single message still avoids confirming existence.) -/
theorem seller_foreign_item_not_found_behavior
    (db : Db) (u : User) (iid : Nat) (request : RejectOrderItemRequest)
    (hfind : db.order_items.find?
      (fun i => decide (i.id = iid ∧ i.seller_id = some u.id)) = none) :
    accept_order_item iid u db = .error ⟨403, "Order item not found or access denied"⟩ ∧
    reject_order_item iid request u db = .error ⟨403, "Order item not found or access denied"⟩ ∧
    runHandler db (accept_order_item iid u db) = db ∧
    runHandler db (reject_order_item iid request u db) = db := by
  have ha : accept_order_item iid u db =
      .error ⟨403, "Order item not found or access denied"⟩ := by
    unfold accept_order_item
    rw [hfind]
  have hr : reject_order_item iid request u db =
      .error ⟨403, "Order item not found or access denied"⟩ := by
    unfold reject_order_item
    rw [hfind]
  exact ⟨ha, hr, by rw [ha]; rfl, by rw [hr]; rfl⟩

/-- Concrete approved seller 3, who owns nothing in `dbW2`. -/
def sellerC6 : User :=
  { id := 3, username := "sel3", email := "sel3@example.com", role := "seller",
    is_active := some true, is_approved := some true }

/-- Witness for C6 (amended): seller 3's accept and reject on seller 2's item
fail uniformly and leave the store unchanged. -/
theorem seller_foreign_item_not_found_behavior_witness :
    accept_order_item 1 sellerC6 dbW2 = .error ⟨403, "Order item not found or access denied"⟩ ∧
    reject_order_item 1 { reason := none } sellerC6 dbW2 =
      .error ⟨403, "Order item not found or access denied"⟩ ∧
    runHandler dbW2 (accept_order_item 1 sellerC6 dbW2) = dbW2 ∧
    runHandler dbW2 (reject_order_item 1 { reason := none } sellerC6 dbW2) = dbW2 :=
  seller_foreign_item_not_found_behavior dbW2 sellerC6 1 { reason := none } rfl

/-- Counterexample to C6 as stated: cross-seller accept/reject responds with
HTTP 403, not the claimed HTTP 404. -/
theorem seller_foreign_item_403_not_404_cex :
    (accept_order_item 1 sellerC6 dbW2).toOption = none ∧
    accept_order_item 1 sellerC6 dbW2 =
      .error ⟨403, "Order item not found or access denied"⟩ ∧
    reject_order_item 1 { reason := none } sellerC6 dbW2 =
      .error ⟨403, "Order item not found or access denied"⟩ ∧
    (403 : Nat) ≠ 404 :=
  ⟨rfl, rfl, rfl, by decide⟩

/-- C9 (amended): the seller gate refuses with 403 exactly when the caller's
role is not "seller" or `is_approved` is not truthy — `is_active` is not
consulted — and a gate failure short-circuits all five seller-scoped
handlers with the same 403 response. -/
theorem seller_gate_spec (u : User) :
    (u.role ≠ "seller" → seller_only u = .error ⟨403, "Seller access required"⟩) ∧
    (u.role = "seller" → boolTruthy u.is_approved = false →
      seller_only u = .error ⟨403, "SellerNotApproved"⟩) ∧
    (u.role = "seller" → boolTruthy u.is_approved = true → seller_only u = .ok u) ∧
    (∀ e, seller_only u = .error e →
      ∀ (iid : Nat) (db : Db) (req : RejectOrderItemRequest)
        (req2 : ReturnRejectRequest) (now : Nat),
        accept_order_item_endpoint iid u db = .error e ∧
        reject_order_item_endpoint iid req u db = .error e ∧
        accept_return_endpoint iid u now db = .error e ∧
        reject_return_endpoint iid req2 u now db = .error e ∧
        mark_return_received_endpoint iid u now db = .error e) := by
  refine ⟨?_, ?_, ?_, ?_⟩
  · intro h
    unfold seller_only
    rw [if_pos h]
  · intro h1 h2
    unfold seller_only
    rw [if_neg (by simp [h1]), if_pos (by simp [h2])]
  · intro h1 h2
    unfold seller_only
    rw [if_neg (by simp [h1]), if_neg (by simp [h2])]
  · intro e he iid db req req2 now
    refine ⟨?_, ?_, ?_, ?_, ?_⟩
    · unfold accept_order_item_endpoint
      rw [he]
      rfl
    · unfold reject_order_item_endpoint
      rw [he]
      rfl
    · unfold accept_return_endpoint
      rw [he]
      rfl
    · unfold reject_return_endpoint
      rw [he]
      rfl
    · unfold mark_return_received_endpoint
      rw [he]
      rfl

/-- Concrete active but unapproved seller 4. -/
def unapprovedSellerC9 : User :=
  { id := 4, username := "sel4", email := "sel4@example.com", role := "seller",
    is_active := some true, is_approved := some false }

/-- Witness for C9 (amended): the unapproved seller is turned away by the
gate and by the accept endpoint with the machine-readable 403. -/
theorem seller_gate_spec_witness :
    seller_only unapprovedSellerC9 = .error ⟨403, "SellerNotApproved"⟩ ∧
    accept_order_item_endpoint 1 unapprovedSellerC9 dbW2 = .error ⟨403, "SellerNotApproved"⟩ :=
  ⟨(seller_gate_spec unapprovedSellerC9).2.1 rfl rfl,
    ((seller_gate_spec unapprovedSellerC9).2.2.2 ⟨403, "SellerNotApproved"⟩
      ((seller_gate_spec unapprovedSellerC9).2.1 rfl rfl) 1 dbW2
      { reason := none } { notes := none } 0).1⟩

/-- Concrete deactivated (blocked) yet approved seller 2. -/
def blockedSellerC9 : User :=
  { id := 2, username := "sel2b", email := "sel2b@example.com", role := "seller",
    is_active := some false, is_approved := some true }

/-- Counterexample to C9 as stated: a seller with `is_active = False` passes
`seller_only` and successfully executes the accept endpoint — the claimed
403 refusal for inactive sellers does not happen. -/
theorem blocked_seller_passes_gate_cex :
    blockedSellerC9.is_active = some false ∧
    seller_only blockedSellerC9 = .ok blockedSellerC9 ∧
    handlerOk (accept_order_item_endpoint 1 blockedSellerC9 dbW2) = true :=
  ⟨rfl, rfl, rfl⟩

/-- C10: the admin return override with a valid target sets `return_status`
to the target, rewrites `return_notes` only when truthy notes are supplied,
stamps `return_processed_at` exactly when the target is one of
ReturnAccepted/ReturnRejected/ReturnReceived/RefundProcessed, and leaves
every other field of the item (and every other row) unchanged; in
particular a "None" override without notes changes `return_status` alone,
keeping reason/notes/requested-at. -/
theorem admin_override_return_status_spec
    (db : Db) (iid : Nat) (item : OrderItem) (request : ReturnOverrideRequest) (now : Nat)
    (huniq : uniqueItemIds db)
    (hfind : db.order_items.find? (fun i => decide (i.id = iid)) = some item)
    (hallow : request.status ∈ allowed_return_statuses) :
    ∃ db', admin_override_return_status iid request now db = .ok db' ∧
      itemById db' iid = some { item with
        return_status := some request.status,
        return_notes := if strTruthy request.notes then request.notes else item.return_notes,
        return_processed_at :=
          if request.status ∈ processed_stamp_statuses then some now
          else item.return_processed_at } ∧
      (∀ j ∈ db.order_items, j.id ≠ iid → j ∈ db'.order_items) ∧
      (request.status = "None" → request.notes = none →
        itemById db' iid = some { item with return_status := some "None" }) := by
  have hmem := List.mem_of_find?_eq_some hfind
  have hid : item.id = iid := by
    have := List.find?_some hfind
    rwa [decide_eq_true_eq] at this
  have heq : admin_override_return_status iid request now db = .ok { db with
      order_items := updItem iid
        (fun i =>
          let i2 := { i with return_status := some request.status }
          let i3 :=
            if strTruthy request.notes then { i2 with return_notes := request.notes }
            else i2
          if request.status ∈ processed_stamp_statuses then
            { i3 with return_processed_at := some now }
          else i3)
        db.order_items } := by
    unfold admin_override_return_status
    rw [if_neg (not_not_intro hallow)]
    rw [hfind]
  have hfid : ∀ i : OrderItem,
      ((fun i =>
        let i2 := { i with return_status := some request.status }
        let i3 :=
          if strTruthy request.notes then { i2 with return_notes := request.notes }
          else i2
        if request.status ∈ processed_stamp_statuses then
          { i3 with return_processed_at := some now }
        else i3) i : OrderItem).id = i.id := by
    intro i
    dsimp only
    split <;> split <;> rfl
  have hfitem : (fun i =>
      let i2 := { i with return_status := some request.status }
      let i3 :=
        if strTruthy request.notes then { i2 with return_notes := request.notes }
        else i2
      if request.status ∈ processed_stamp_statuses then
        { i3 with return_processed_at := some now }
      else i3) item = { item with
        return_status := some request.status,
        return_notes := if strTruthy request.notes then request.notes else item.return_notes,
        return_processed_at :=
          if request.status ∈ processed_stamp_statuses then some now
          else item.return_processed_at } := by
    dsimp only
    by_cases hn : strTruthy request.notes = true <;>
      by_cases hp : request.status ∈ processed_stamp_statuses <;>
      simp [hn, hp]
  have hfound : itemById { db with
      order_items := updItem iid
        (fun i =>
          let i2 := { i with return_status := some request.status }
          let i3 :=
            if strTruthy request.notes then { i2 with return_notes := request.notes }
            else i2
          if request.status ∈ processed_stamp_statuses then
            { i3 with return_processed_at := some now }
          else i3)
        db.order_items } iid = some { item with
        return_status := some request.status,
        return_notes := if strTruthy request.notes then request.notes else item.return_notes,
        return_processed_at :=
          if request.status ∈ processed_stamp_statuses then some now
          else item.return_processed_at } := by
    unfold itemById
    rw [find?_updItem huniq hmem hid hfid]
    exact congrArg some hfitem
  refine ⟨_, heq, hfound, ?_, ?_⟩
  · intro j hj hne
    exact mem_updItem_of_ne hj hne
  · intro h1 h2
    rw [hfound, h1, h2]
    simp [strTruthy, processed_stamp_statuses]

/-- Concrete delivered item with a pending return request, used to witness
the admin return override. -/
def itemW10 : OrderItem :=
  { id := 1, order_id := 1, product_id := some 1, price := 50, seller_id := some 2,
    status := "Delivered", return_status := some "ReturnRequested",
    return_reason := some "wrong size", return_requested_at := some 3 }

/-- Concrete store around `itemW10`. -/
def dbW10 : Db :=
  { orders := [{ id := 1, user_id := 1 }], order_items := [itemW10] }

/-- Witness for C10: overriding the concrete requested return to
"ReturnAccepted" without notes stamps the processing time and keeps the
reason, notes and request time. -/
theorem admin_override_return_status_spec_witness :
    ∃ db', admin_override_return_status 1 { status := "ReturnAccepted", notes := none } 9 dbW10 = .ok db' ∧
      itemById db' 1 = some { itemW10 with
        return_status := some "ReturnAccepted",
        return_notes := if strTruthy none then none else itemW10.return_notes,
        return_processed_at :=
          if "ReturnAccepted" ∈ processed_stamp_statuses then some 9
          else itemW10.return_processed_at } ∧
      (∀ j ∈ dbW10.order_items, j.id ≠ 1 → j ∈ db'.order_items) ∧
      (("ReturnAccepted" : String) = "None" → (none : Option String) = none →
        itemById db' 1 = some { itemW10 with return_status := some "None" }) :=
  admin_override_return_status_spec dbW10 1 itemW10
    { status := "ReturnAccepted", notes := none } 9
    (by simp [uniqueItemIds, dbW10]) rfl (by decide)

/-- C4: for an order item owned by the calling customer (with its Boolean
columns populated, as the schema defaults guarantee), the return request
fails with a 400 precondition error — leaving the store unchanged — exactly
when the item is not "Delivered", or its return status differs from "None",
or it is not return-eligible; otherwise it succeeds, records the reason and
notes, and stamps `return_requested_at`. -/
theorem request_return_spec
    (db : Db) (u : User) (iid : Nat) (req : ReturnRequestCreate) (now : Nat)
    (item : OrderItem) (ord : Order) (s : String) (e : Bool)
    (huniq : uniqueItemIds db)
    (hfind : db.order_items.find? (fun i => decide (i.id = iid)) = some item)
    (horder : db.orders.find? (fun o => decide (o.id = item.order_id)) = some ord)
    (howner : ord.user_id = u.id)
    (hrs : item.return_status = some s) (hs : s ≠ "")
    (he : item.is_return_eligible = some e) :
    (item.status = "Delivered" ∧ s = "None" ∧ e = true →
      ∃ db', request_return iid req u now db = .ok db' ∧
        itemById db' iid = some { item with return_status := some "ReturnRequested", return_reason := some req.reason, return_notes := req.notes, return_requested_at := some now } ∧
        ∀ j ∈ db.order_items, j.id ≠ iid → j ∈ db'.order_items) ∧
    (item.status ≠ "Delivered" ∨ s ≠ "None" ∨ e = false →
      (∃ err, request_return iid req u now db = .error err ∧ err.status_code = 400) ∧
      runHandler db (request_return iid req u now db) = db) := by
  have hmem := List.mem_of_find?_eq_some hfind
  have hid : item.id = iid := by
    have := List.find?_some hfind
    rwa [decide_eq_true_eq] at this
  have hbase : request_return iid req u now db =
      (if item.status ≠ "Delivered" then
        .error ⟨400, "Only delivered items can be returned"⟩
      else if strTruthy item.return_status ∧ item.return_status ≠ some "None" then
        .error ⟨400, "Return already " ++ item.return_status.getD "None"⟩
      else if ¬ boolTruthy item.is_return_eligible then
        .error ⟨400, "This item is not eligible for return"⟩
      else
        .ok { db with order_items := updItem iid (fun i => { i with return_status := some "ReturnRequested", return_reason := some req.reason, return_notes := req.notes, return_requested_at := some now }) db.order_items }) := by
    unfold request_return
    simp only [hfind, horder]
    rw [if_neg (by simp [howner])]
  constructor
  · rintro ⟨h1, h2, h3⟩
    have heq : request_return iid req u now db =
        .ok { db with order_items := updItem iid (fun i => { i with return_status := some "ReturnRequested", return_reason := some req.reason, return_notes := req.notes, return_requested_at := some now }) db.order_items } := by
      rw [hbase, if_neg (by simp [h1]), if_neg (by simp [hrs, h2]),
        if_neg (by simp [boolTruthy, he, h3])]
    refine ⟨_, heq, ?_, ?_⟩
    · unfold itemById
      exact find?_updItem huniq hmem hid (fun i => rfl)
    · intro j hj hne
      exact mem_updItem_of_ne hj hne
  · intro h
    have herr : ∃ err, request_return iid req u now db = .error err ∧ err.status_code = 400 := by
      rcases h with h | h | h
      · exact ⟨_, by rw [hbase, if_pos h], rfl⟩
      · by_cases hd : item.status ≠ "Delivered"
        · exact ⟨_, by rw [hbase, if_pos hd], rfl⟩
        · refine ⟨_, by rw [hbase, if_neg hd, if_pos ⟨?_, ?_⟩], rfl⟩
          · simp [hrs, strTruthy, hs]
          · simp [hrs, h]
      · by_cases hd : item.status ≠ "Delivered"
        · exact ⟨_, by rw [hbase, if_pos hd], rfl⟩
        · by_cases hr2 : strTruthy item.return_status ∧ item.return_status ≠ some "None"
          · exact ⟨_, by rw [hbase, if_neg hd, if_pos hr2], rfl⟩
          · exact ⟨_, by rw [hbase, if_neg hd, if_neg hr2,
              if_pos (by simp [boolTruthy, he, h])], rfl⟩
    obtain ⟨err, herr', hcode⟩ := herr
    exact ⟨⟨err, herr', hcode⟩, by rw [herr']; rfl⟩

/-- Concrete delivered, return-eligible order item. -/
def itemW4 : OrderItem :=
  { id := 1, order_id := 1, product_id := some 1, price := 30, seller_id := some 2,
    status := "Delivered" }

/-- Concrete customer 1, owner of order 1. -/
def custW4 : User :=
  { id := 1, username := "cust1", email := "c1@example.com", role := "customer",
    is_active := some true }

/-- Concrete store around `itemW4`. -/
def dbW4 : Db :=
  { orders := [{ id := 1, user_id := 1 }], order_items := [itemW4] }

/-- Witness for C4: requesting a return on the concrete delivered item
succeeds and stamps the request fields. -/
theorem request_return_spec_witness :
    ∃ db', request_return 1 { reason := "wrong size", notes := some "tight fit" } custW4 5 dbW4 = .ok db' ∧
      itemById db' 1 = some { itemW4 with return_status := some "ReturnRequested", return_reason := some "wrong size", return_notes := some "tight fit", return_requested_at := some 5 } ∧
      ∀ j ∈ dbW4.order_items, j.id ≠ 1 → j ∈ db'.order_items :=
  (request_return_spec dbW4 custW4 1 { reason := "wrong size", notes := some "tight fit" } 5
    itemW4 { id := 1, user_id := 1 } "None" true
    (by simp [uniqueItemIds, dbW4]) rfl rfl rfl rfl (by decide) rfl).1
    ⟨rfl, rfl, rfl⟩

/-- C7 (amended): for an item of the calling customer's order, cancel
succeeds exactly from `return_status = "ReturnRequested"`, resetting
`return_status` to "None" and nulling reason, notes and request time (from
any other return status it fails with the 400 error and changes nothing);
consequently a successful request followed by cancel always leaves those
four fields at "None"/null/null/null — which equal the pre-request values
only when reason, notes and request time were already null before the
request. -/
theorem cancel_return_spec
    (db : Db) (u : User) (iid : Nat) (item : OrderItem) (ord : Order)
    (huniq : uniqueItemIds db)
    (hfind : db.order_items.find? (fun i => decide (i.id = iid)) = some item)
    (horder : db.orders.find? (fun o => decide (o.id = item.order_id)) = some ord)
    (howner : ord.user_id = u.id) :
    (item.return_status = some "ReturnRequested" →
      ∃ db', cancel_return iid u db = .ok db' ∧
        itemById db' iid = some { item with return_status := some "None", return_reason := none, return_notes := none, return_requested_at := none } ∧
        ∀ j ∈ db.order_items, j.id ≠ iid → j ∈ db'.order_items) ∧
    (item.return_status ≠ some "ReturnRequested" →
      cancel_return iid u db = .error ⟨400, "Can only cancel return requests that are pending"⟩ ∧
      runHandler db (cancel_return iid u db) = db) ∧
    (∀ (req : ReturnRequestCreate) (now : Nat) (db1 : Db),
      request_return iid req u now db = .ok db1 →
      ∃ db2, cancel_return iid u db1 = .ok db2 ∧
        itemById db2 iid = some { item with return_status := some "None", return_reason := none, return_notes := none, return_requested_at := none }) := by
  have hmem := List.mem_of_find?_eq_some hfind
  have hid : item.id = iid := by
    have := List.find?_some hfind
    rwa [decide_eq_true_eq] at this
  have hbase : cancel_return iid u db =
      (if item.return_status ≠ some "ReturnRequested" then
        .error ⟨400, "Can only cancel return requests that are pending"⟩
      else
        .ok { db with order_items := updItem iid (fun i => { i with return_status := some "None", return_reason := none, return_notes := none, return_requested_at := none }) db.order_items }) := by
    unfold cancel_return
    simp only [hfind, horder]
    rw [if_neg (by simp [howner])]
  refine ⟨?_, ?_, ?_⟩
  · intro h
    have heq : cancel_return iid u db =
        .ok { db with order_items := updItem iid (fun i => { i with return_status := some "None", return_reason := none, return_notes := none, return_requested_at := none }) db.order_items } := by
      rw [hbase, if_neg (by simp [h])]
    refine ⟨_, heq, ?_, ?_⟩
    · unfold itemById
      exact find?_updItem huniq hmem hid (fun i => rfl)
    · intro j hj hne
      exact mem_updItem_of_ne hj hne
  · intro h
    have heq : cancel_return iid u db =
        .error ⟨400, "Can only cancel return requests that are pending"⟩ := by
      rw [hbase, if_pos h]
    exact ⟨heq, by rw [heq]; rfl⟩
  · intro req now db1 hok
    have hbaseReq : request_return iid req u now db =
        (if item.status ≠ "Delivered" then
          .error ⟨400, "Only delivered items can be returned"⟩
        else if strTruthy item.return_status ∧ item.return_status ≠ some "None" then
          .error ⟨400, "Return already " ++ item.return_status.getD "None"⟩
        else if ¬ boolTruthy item.is_return_eligible then
          .error ⟨400, "This item is not eligible for return"⟩
        else
          .ok { db with order_items := updItem iid (fun i => { i with return_status := some "ReturnRequested", return_reason := some req.reason, return_notes := req.notes, return_requested_at := some now }) db.order_items }) := by
      unfold request_return
      simp only [hfind, horder]
      rw [if_neg (by simp [howner])]
    rw [hbaseReq] at hok
    by_cases h1 : item.status ≠ "Delivered"
    · rw [if_pos h1] at hok
      cases hok
    · rw [if_neg h1] at hok
      by_cases h2 : strTruthy item.return_status ∧ item.return_status ≠ some "None"
      · rw [if_pos h2] at hok
        cases hok
      · rw [if_neg h2] at hok
        by_cases h3 : ¬ boolTruthy item.is_return_eligible
        · rw [if_pos h3] at hok
          cases hok
        · rw [if_neg h3] at hok
          injection hok with hok
          have huniq1 : ({ db with order_items := updItem iid (fun i => { i with return_status := some "ReturnRequested", return_reason := some req.reason, return_notes := req.notes, return_requested_at := some now }) db.order_items } : Db).order_items.Pairwise (fun a b => a.id ≠ b.id) :=
            updItem_pairwise (fun i => rfl) huniq
          have hfind1 : ({ db with order_items := updItem iid (fun i => { i with return_status := some "ReturnRequested", return_reason := some req.reason, return_notes := req.notes, return_requested_at := some now }) db.order_items } : Db).order_items.find? (fun i => decide (i.id = iid)) = some { item with return_status := some "ReturnRequested", return_reason := some req.reason, return_notes := req.notes, return_requested_at := some now } :=
            find?_updItem huniq hmem hid (fun i => rfl)
          have hmem1 : ({ item with return_status := some "ReturnRequested", return_reason := some req.reason, return_notes := req.notes, return_requested_at := some now } : OrderItem) ∈ ({ db with order_items := updItem iid (fun i => { i with return_status := some "ReturnRequested", return_reason := some req.reason, return_notes := req.notes, return_requested_at := some now }) db.order_items } : Db).order_items :=
            List.mem_of_find?_eq_some hfind1
          have hcan : cancel_return iid u db1 =
              .ok { db1 with order_items := updItem iid (fun i => { i with return_status := some "None", return_reason := none, return_notes := none, return_requested_at := none }) db1.order_items } := by
            rw [← hok]
            unfold cancel_return
            simp only [hfind1, horder]
            rw [if_neg (by simp [howner]), if_neg (by simp)]
          refine ⟨_, hcan, ?_⟩
          unfold itemById
          rw [← hok]
          exact @find?_updItem _ iid _
            ({ item with return_status := some "ReturnRequested", return_reason := some req.reason, return_notes := req.notes, return_requested_at := some now })
            huniq1 hmem1 hid (fun i => rfl)

/-- Concrete delivered item with a stale pre-request `return_reason` of
"old" (left behind by an earlier admin override to "None"). -/
def itemC7 : OrderItem :=
  { id := 1, order_id := 1, product_id := some 1, price := 30, seller_id := some 2,
    status := "Delivered", return_status := some "None", return_reason := some "old" }

/-- Concrete store around `itemC7`. -/
def dbC7 : Db :=
  { orders := [{ id := 1, user_id := 1 }], order_items := [itemC7] }

/-- Store after the customer requests a return on `itemC7`. -/
def dbC7b : Db := runHandler dbC7 (request_return 1 { reason := "new" } custW4 5 dbC7)

/-- Store after the customer then cancels that request. -/
def dbC7c : Db := runHandler dbC7b (cancel_return 1 custW4 dbC7b)

/-- Counterexample to C7 as stated: request followed by cancel nulls
`return_reason`, it does not restore the pre-request value "old". -/
theorem request_cancel_not_restoring_prior_fields_cex :
    handlerOk (request_return 1 { reason := "new" } custW4 5 dbC7) = true ∧
    handlerOk (cancel_return 1 custW4 dbC7b) = true ∧
    dbC7.order_items.map (fun i => i.return_reason) = [some "old"] ∧
    dbC7c.order_items.map (fun i => i.return_reason) = [none] ∧
    some "old" ≠ (none : Option String) :=
  ⟨rfl, rfl, rfl, rfl, by decide⟩

/-- Witness for C7 (amended): cancelling the concrete requested return
resets the four return fields. -/
theorem cancel_return_spec_witness :
    ∃ db', cancel_return 1 custW4 dbW10 = .ok db' ∧
      itemById db' 1 = some { itemW10 with return_status := some "None", return_reason := none, return_notes := none, return_requested_at := none } ∧
      ∀ j ∈ dbW10.order_items, j.id ≠ 1 → j ∈ db'.order_items :=
  (cancel_return_spec dbW10 custW4 1 itemW10 { id := 1, user_id := 1 }
    (by simp [uniqueItemIds, dbW10]) rfl rfl rfl).1 rfl

/-- Transfer of the key-uniqueness and delivered-before-return properties
along an equality of item tables. -/
theorem inv_of_order_items_eq {db db2 : Db} (h : db2.order_items = db.order_items)
    (huniq : uniqueItemIds db) (hinv : delivered_before_return db) :
    uniqueItemIds db2 ∧ delivered_before_return db2 := by
  constructor
  · unfold uniqueItemIds
    rw [h]
    exact huniq
  · unfold delivered_before_return
    rw [h]
    exact hinv

/-- Transfer of the two properties along a rewrite of the item table by a row
function preserving id, fulfillment status and return status. -/
theorem inv_of_map {db db2 : Db} (g : OrderItem → OrderItem)
    (h : db2.order_items = db.order_items.map g)
    (hg : ∀ i, (g i).id = i.id ∧ (g i).status = i.status ∧ (g i).return_status = i.return_status)
    (huniq : uniqueItemIds db) (hinv : delivered_before_return db) :
    uniqueItemIds db2 ∧ delivered_before_return db2 := by
  constructor
  · unfold uniqueItemIds
    rw [h]
    refine List.Pairwise.map _ ?_ huniq
    intro a b hab
    rw [(hg a).1, (hg b).1]
    exact hab
  · unfold delivered_before_return
    rw [h]
    intro i' hi' h1 h2
    rcases List.mem_map.mp hi' with ⟨i, hi, heq⟩
    subst heq
    rw [(hg i).2.2] at h1 h2
    rw [(hg i).2.1]
    exact hinv i hi h1 h2

/-- The delivered-before-return property survives a single-row update when
every row carrying the updated key satisfies it after the update. -/
theorem inv_step_updItem {items : List OrderItem} {iid : Nat} {f : OrderItem → OrderItem}
    (hinv : ∀ i ∈ items, i.return_status ≠ some "None" → i.return_status ≠ none →
      i.status = "Delivered")
    (hmut : ∀ i ∈ items, i.id = iid →
      (f i).return_status ≠ some "None" → (f i).return_status ≠ none →
        (f i).status = "Delivered") :
    ∀ i' ∈ updItem iid f items, i'.return_status ≠ some "None" → i'.return_status ≠ none →
      i'.status = "Delivered" := by
  intro i' hi' h1 h2
  rcases List.mem_map.mp hi' with ⟨i, hi, heq⟩
  by_cases hcase : i.id = iid
  · rw [if_pos hcase] at heq
    subst heq
    exact hmut i hi hcase h1 h2
  · rw [if_neg hcase] at heq
    subst heq
    exact hinv i hi h1 h2

/-- Packaging of the two preserved properties for a database whose item
table was rewritten by `updItem`. -/
theorem inv_goal_updItem (db : Db) (iid : Nat) (f : OrderItem → OrderItem)
    (hfid : ∀ i, (f i).id = i.id)
    (huniq : uniqueItemIds db) (hinv : delivered_before_return db)
    (hmut : ∀ i ∈ db.order_items, i.id = iid →
      (f i).return_status ≠ some "None" → (f i).return_status ≠ none →
        (f i).status = "Delivered") :
    uniqueItemIds { db with order_items := updItem iid f db.order_items } ∧
    delivered_before_return { db with order_items := updItem iid f db.order_items } :=
  ⟨updItem_pairwise hfid huniq, inv_step_updItem hinv hmut⟩

/-- C5 (amended): every embedded operation except the two admin overrides
preserves key uniqueness and the delivered-before-return invariant — so in
any store reachable without admin overrides an engaged `return_status`
implies the item was "Delivered".  The admin return override itself checks
only the target value and can engage a return on an undelivered item (see
the counterexample). -/
theorem return_activation_requires_delivered_invariant
    (op : ApiOp) (db : Db)
    (hop : op.isAdminOverride = false)
    (huniq : uniqueItemIds db)
    (hinv : delivered_before_return db) :
    uniqueItemIds (applyApiOp op db) ∧ delivered_before_return (applyApiOp op db) := by
  cases op with
  | sellerAccept iid s =>
    rcases hfind : db.order_items.find?
        (fun i => decide (i.id = iid ∧ i.seller_id = some s.id)) with _ | item
    · have heq : ∃ e, accept_order_item iid s db = .error e := by
        unfold accept_order_item
        rw [hfind]
        exact ⟨_, rfl⟩
      obtain ⟨e, heq⟩ := heq
      simp only [applyApiOp]
      rw [heq]
      exact ⟨huniq, hinv⟩
    · have hmem := List.mem_of_find?_eq_some hfind
      have hid : item.id = iid := by
        have := List.find?_some hfind
        rw [decide_eq_true_eq] at this
        exact this.1
      by_cases hcond : item.status ≠ "Pending" ∧ item.status ≠ "Rejected"
      · have heq : ∃ e, accept_order_item iid s db = .error e := by
          unfold accept_order_item
          rw [hfind]
          exact ⟨_, if_pos hcond⟩
        obtain ⟨e, heq⟩ := heq
        simp only [applyApiOp]
        rw [heq]
        exact ⟨huniq, hinv⟩
      · have heq : accept_order_item iid s db = .ok (update_order_status_from_items item.order_id { db with order_items := updItem iid (fun i => { i with status := "Accepted", rejection_reason := none }) db.order_items }) := by
          unfold accept_order_item
          rw [hfind]
          exact if_neg hcond
        simp only [applyApiOp]
        rw [heq]
        simp only [runHandler]
        have hmut : ∀ i ∈ db.order_items, i.id = iid →
            ((fun i => { i with status := "Accepted", rejection_reason := none }) i : OrderItem).return_status ≠ some "None" →
            ((fun i => { i with status := "Accepted", rejection_reason := none }) i : OrderItem).return_status ≠ none →
            ((fun i => { i with status := "Accepted", rejection_reason := none }) i : OrderItem).status = "Delivered" := by
          intro i hi hiid h1 h2
          have hieq : i = item := eq_of_mem_unique huniq hi hmem (hiid.trans hid.symm)
          subst hieq
          have hD := hinv i hi h1 h2
          rcases not_and_or.mp hcond with h | h
          · rw [not_not] at h
            exact absurd (h.symm.trans hD) (by decide)
          · rw [not_not] at h
            exact absurd (h.symm.trans hD) (by decide)
        have hgoal := inv_goal_updItem db iid
          (fun i => { i with status := "Accepted", rejection_reason := none })
          (fun i => rfl) huniq hinv hmut
        constructor
        · unfold uniqueItemIds
          rw [(update_order_status_frame _ _).1]
          exact hgoal.1
        · unfold delivered_before_return
          rw [(update_order_status_frame _ _).1]
          exact hgoal.2
  | sellerReject iid req s =>
    rcases hfind : db.order_items.find?
        (fun i => decide (i.id = iid ∧ i.seller_id = some s.id)) with _ | item
    · have heq : ∃ e, reject_order_item iid req s db = .error e := by
        unfold reject_order_item
        rw [hfind]
        exact ⟨_, rfl⟩
      obtain ⟨e, heq⟩ := heq
      simp only [applyApiOp]
      rw [heq]
      exact ⟨huniq, hinv⟩
    · have hmem := List.mem_of_find?_eq_some hfind
      have hid : item.id = iid := by
        have := List.find?_some hfind
        rw [decide_eq_true_eq] at this
        exact this.1
      by_cases hcond : item.status ≠ "Pending" ∧ item.status ≠ "Accepted"
      · have heq : ∃ e, reject_order_item iid req s db = .error e := by
          unfold reject_order_item
          rw [hfind]
          exact ⟨_, if_pos hcond⟩
        obtain ⟨e, heq⟩ := heq
        simp only [applyApiOp]
        rw [heq]
        exact ⟨huniq, hinv⟩
      · have heq : reject_order_item iid req s db = .ok (update_order_status_from_items item.order_id { db with order_items := updItem iid (fun i => { i with status := "Rejected", rejection_reason := req.reason }) db.order_items }) := by
          unfold reject_order_item
          rw [hfind]
          exact if_neg hcond
        simp only [applyApiOp]
        rw [heq]
        simp only [runHandler]
        have hmut : ∀ i ∈ db.order_items, i.id = iid →
            ((fun i => { i with status := "Rejected", rejection_reason := req.reason }) i : OrderItem).return_status ≠ some "None" →
            ((fun i => { i with status := "Rejected", rejection_reason := req.reason }) i : OrderItem).return_status ≠ none →
            ((fun i => { i with status := "Rejected", rejection_reason := req.reason }) i : OrderItem).status = "Delivered" := by
          intro i hi hiid h1 h2
          have hieq : i = item := eq_of_mem_unique huniq hi hmem (hiid.trans hid.symm)
          subst hieq
          have hD := hinv i hi h1 h2
          rcases not_and_or.mp hcond with h | h
          · rw [not_not] at h
            exact absurd (h.symm.trans hD) (by decide)
          · rw [not_not] at h
            exact absurd (h.symm.trans hD) (by decide)
        have hgoal := inv_goal_updItem db iid
          (fun i => { i with status := "Rejected", rejection_reason := req.reason })
          (fun i => rfl) huniq hinv hmut
        constructor
        · unfold uniqueItemIds
          rw [(update_order_status_frame _ _).1]
          exact hgoal.1
        · unfold delivered_before_return
          rw [(update_order_status_frame _ _).1]
          exact hgoal.2
  | customerRequestReturn iid req c now =>
    rcases hfind : db.order_items.find? (fun i => decide (i.id = iid)) with _ | item
    · have heq : ∃ e, request_return iid req c now db = .error e := by
        unfold request_return
        rw [hfind]
        exact ⟨_, rfl⟩
      obtain ⟨e, heq⟩ := heq
      simp only [applyApiOp]
      rw [heq]
      exact ⟨huniq, hinv⟩
    · have hmem := List.mem_of_find?_eq_some hfind
      have hid : item.id = iid := by
        have := List.find?_some hfind
        rwa [decide_eq_true_eq] at this
      rcases hford : db.orders.find? (fun o => decide (o.id = item.order_id)) with _ | ord
      · have heq : ∃ e, request_return iid req c now db = .error e := by
          unfold request_return
          simp only [hfind, hford]
          exact ⟨_, rfl⟩
        obtain ⟨e, heq⟩ := heq
        simp only [applyApiOp]
        rw [heq]
        exact ⟨huniq, hinv⟩
      · by_cases h0 : ord.user_id ≠ c.id
        · have heq : ∃ e, request_return iid req c now db = .error e := by
            unfold request_return
            simp only [hfind, hford]
            rw [if_pos h0]
            exact ⟨_, rfl⟩
          obtain ⟨e, heq⟩ := heq
          simp only [applyApiOp]
          rw [heq]
          exact ⟨huniq, hinv⟩
        · by_cases h1 : item.status ≠ "Delivered"
          · have heq : ∃ e, request_return iid req c now db = .error e := by
              unfold request_return
              simp only [hfind, hford]
              rw [if_neg h0, if_pos h1]
              exact ⟨_, rfl⟩
            obtain ⟨e, heq⟩ := heq
            simp only [applyApiOp]
            rw [heq]
            exact ⟨huniq, hinv⟩
          · by_cases h2 : strTruthy item.return_status ∧ item.return_status ≠ some "None"
            · have heq : ∃ e, request_return iid req c now db = .error e := by
                unfold request_return
                simp only [hfind, hford]
                rw [if_neg h0, if_neg h1, if_pos h2]
                exact ⟨_, rfl⟩
              obtain ⟨e, heq⟩ := heq
              simp only [applyApiOp]
              rw [heq]
              exact ⟨huniq, hinv⟩
            · by_cases h3 : ¬ boolTruthy item.is_return_eligible
              · have heq : ∃ e, request_return iid req c now db = .error e := by
                  unfold request_return
                  simp only [hfind, hford]
                  rw [if_neg h0, if_neg h1, if_neg h2, if_pos h3]
                  exact ⟨_, rfl⟩
                obtain ⟨e, heq⟩ := heq
                simp only [applyApiOp]
                rw [heq]
                exact ⟨huniq, hinv⟩
              · have heq : request_return iid req c now db = .ok { db with order_items := updItem iid (fun i => { i with return_status := some "ReturnRequested", return_reason := some req.reason, return_notes := req.notes, return_requested_at := some now }) db.order_items } := by
                  unfold request_return
                  simp only [hfind, hford]
                  rw [if_neg h0, if_neg h1, if_neg h2, if_neg h3]
                simp only [applyApiOp]
                rw [heq]
                simp only [runHandler]
                refine inv_goal_updItem db iid _ (fun i => rfl) huniq hinv ?_
                intro i hi hiid h1' h2'
                have hieq : i = item := eq_of_mem_unique huniq hi hmem (hiid.trans hid.symm)
                subst hieq
                rw [not_not] at h1
                exact h1
  | customerCancelReturn iid c =>
    rcases hfind : db.order_items.find? (fun i => decide (i.id = iid)) with _ | item
    · have heq : ∃ e, cancel_return iid c db = .error e := by
        unfold cancel_return
        rw [hfind]
        exact ⟨_, rfl⟩
      obtain ⟨e, heq⟩ := heq
      simp only [applyApiOp]
      rw [heq]
      exact ⟨huniq, hinv⟩
    · rcases hford : db.orders.find? (fun o => decide (o.id = item.order_id)) with _ | ord
      · have heq : ∃ e, cancel_return iid c db = .error e := by
          unfold cancel_return
          simp only [hfind, hford]
          exact ⟨_, rfl⟩
        obtain ⟨e, heq⟩ := heq
        simp only [applyApiOp]
        rw [heq]
        exact ⟨huniq, hinv⟩
      · by_cases h0 : ord.user_id ≠ c.id
        · have heq : ∃ e, cancel_return iid c db = .error e := by
            unfold cancel_return
            simp only [hfind, hford]
            rw [if_pos h0]
            exact ⟨_, rfl⟩
          obtain ⟨e, heq⟩ := heq
          simp only [applyApiOp]
          rw [heq]
          exact ⟨huniq, hinv⟩
        · by_cases h1 : item.return_status ≠ some "ReturnRequested"
          · have heq : ∃ e, cancel_return iid c db = .error e := by
              unfold cancel_return
              simp only [hfind, hford]
              rw [if_neg h0, if_pos h1]
              exact ⟨_, rfl⟩
            obtain ⟨e, heq⟩ := heq
            simp only [applyApiOp]
            rw [heq]
            exact ⟨huniq, hinv⟩
          · have heq : cancel_return iid c db = .ok { db with order_items := updItem iid (fun i => { i with return_status := some "None", return_reason := none, return_notes := none, return_requested_at := none }) db.order_items } := by
              unfold cancel_return
              simp only [hfind, hford]
              rw [if_neg h0, if_neg h1]
            simp only [applyApiOp]
            rw [heq]
            simp only [runHandler]
            refine inv_goal_updItem db iid _ (fun i => rfl) huniq hinv ?_
            intro i hi hiid h1' h2'
            exact absurd rfl h1'
  | sellerAcceptReturn iid s now =>
    rcases hfind : db.order_items.find?
        (fun i => decide (i.id = iid ∧ i.seller_id = some s.id)) with _ | item
    · have heq : ∃ e, accept_return iid s now db = .error e := by
        unfold accept_return
        rw [hfind]
        exact ⟨_, rfl⟩
      obtain ⟨e, heq⟩ := heq
      simp only [applyApiOp]
      rw [heq]
      exact ⟨huniq, hinv⟩
    · have hmem := List.mem_of_find?_eq_some hfind
      have hid : item.id = iid := by
        have := List.find?_some hfind
        rw [decide_eq_true_eq] at this
        exact this.1
      by_cases hcond : item.return_status ≠ some "ReturnRequested"
      · have heq : ∃ e, accept_return iid s now db = .error e := by
          unfold accept_return
          rw [hfind]
          exact ⟨_, if_pos hcond⟩
        obtain ⟨e, heq⟩ := heq
        simp only [applyApiOp]
        rw [heq]
        exact ⟨huniq, hinv⟩
      · rw [not_not] at hcond
        have heq : accept_return iid s now db = .ok { db with order_items := updItem iid (fun i => { i with return_status := some "ReturnAccepted", return_processed_at := some now }) db.order_items } := by
          unfold accept_return
          rw [hfind]
          exact if_neg (not_not_intro hcond)
        simp only [applyApiOp]
        rw [heq]
        simp only [runHandler]
        refine inv_goal_updItem db iid _ (fun i => rfl) huniq hinv ?_
        intro i hi hiid h1' h2'
        have hieq : i = item := eq_of_mem_unique huniq hi hmem (hiid.trans hid.symm)
        subst hieq
        exact hinv i hi (by rw [hcond]; simp) (by rw [hcond]; simp)
  | sellerRejectReturn iid req s now =>
    rcases hfind : db.order_items.find?
        (fun i => decide (i.id = iid ∧ i.seller_id = some s.id)) with _ | item
    · have heq : ∃ e, reject_return iid req s now db = .error e := by
        unfold reject_return
        rw [hfind]
        exact ⟨_, rfl⟩
      obtain ⟨e, heq⟩ := heq
      simp only [applyApiOp]
      rw [heq]
      exact ⟨huniq, hinv⟩
    · have hmem := List.mem_of_find?_eq_some hfind
      have hid : item.id = iid := by
        have := List.find?_some hfind
        rw [decide_eq_true_eq] at this
        exact this.1
      by_cases hcond : item.return_status ≠ some "ReturnRequested"
      · have heq : ∃ e, reject_return iid req s now db = .error e := by
          unfold reject_return
          rw [hfind]
          exact ⟨_, if_pos hcond⟩
        obtain ⟨e, heq⟩ := heq
        simp only [applyApiOp]
        rw [heq]
        exact ⟨huniq, hinv⟩
      · rw [not_not] at hcond
        have heq : reject_return iid req s now db = .ok { db with order_items := updItem iid (fun i => { i with return_status := some "ReturnRejected", return_notes := req.notes, return_processed_at := some now }) db.order_items } := by
          unfold reject_return
          rw [hfind]
          exact if_neg (not_not_intro hcond)
        simp only [applyApiOp]
        rw [heq]
        simp only [runHandler]
        refine inv_goal_updItem db iid _ (fun i => rfl) huniq hinv ?_
        intro i hi hiid h1' h2'
        have hieq : i = item := eq_of_mem_unique huniq hi hmem (hiid.trans hid.symm)
        subst hieq
        exact hinv i hi (by rw [hcond]; simp) (by rw [hcond]; simp)
  | sellerMarkReceived iid s now =>
    rcases hfind : db.order_items.find?
        (fun i => decide (i.id = iid ∧ i.seller_id = some s.id)) with _ | item
    · have heq : ∃ e, mark_return_received iid s now db = .error e := by
        unfold mark_return_received
        rw [hfind]
        exact ⟨_, rfl⟩
      obtain ⟨e, heq⟩ := heq
      simp only [applyApiOp]
      rw [heq]
      exact ⟨huniq, hinv⟩
    · have hmem := List.mem_of_find?_eq_some hfind
      have hid : item.id = iid := by
        have := List.find?_some hfind
        rw [decide_eq_true_eq] at this
        exact this.1
      by_cases hcond : item.return_status ≠ some "ReturnAccepted" ∧ item.return_status ≠ some "ReturnInTransit"
      · have heq : ∃ e, mark_return_received iid s now db = .error e := by
          unfold mark_return_received
          rw [hfind]
          exact ⟨_, if_pos hcond⟩
        obtain ⟨e, heq⟩ := heq
        simp only [applyApiOp]
        rw [heq]
        exact ⟨huniq, hinv⟩
      · have heq : mark_return_received iid s now db = .ok { db with order_items := updItem iid (fun i => { i with return_status := some "ReturnReceived", return_processed_at := some now }) db.order_items } := by
          unfold mark_return_received
          rw [hfind]
          exact if_neg hcond
        simp only [applyApiOp]
        rw [heq]
        simp only [runHandler]
        refine inv_goal_updItem db iid _ (fun i => rfl) huniq hinv ?_
        intro i hi hiid h1' h2'
        have hieq : i = item := eq_of_mem_unique huniq hi hmem (hiid.trans hid.symm)
        subst hieq
        rcases not_and_or.mp hcond with h | h
        · rw [not_not] at h
          exact hinv i hi (by rw [h]; simp) (by rw [h]; simp)
        · rw [not_not] at h
          exact hinv i hi (by rw [h]; simp) (by rw [h]; simp)
  | adminOverrideItemStatus iid req =>
    simp [ApiOp.isAdminOverride] at hop
  | adminOverrideReturnStatus iid req now =>
    simp [ApiOp.isAdminOverride] at hop
  | sellerUpdateProduct pid p s =>
    rcases hf : db.products.find?
        (fun p2 => decide (p2.id = pid ∧ p2.seller_id = some s.id)) with _ | prod
    · have heq : ∃ e, update_seller_product pid p s db = .error e := by
        unfold update_seller_product
        rw [hf]
        exact ⟨_, rfl⟩
      obtain ⟨e, heq⟩ := heq
      simp only [applyApiOp]
      rw [heq]
      exact ⟨huniq, hinv⟩
    · have heq : ∃ P, update_seller_product pid p s db = .ok { db with products := P } := by
        unfold update_seller_product
        rw [hf]
        exact ⟨_, rfl⟩
      obtain ⟨P, heq⟩ := heq
      simp only [applyApiOp]
      rw [heq]
      exact ⟨huniq, hinv⟩
  | sellerUpdateVariant vid v s now =>
    rcases hf1 : db.product_variants.find? (fun v2 => decide (v2.id = vid)) with _ | ev
    · have heq : ∃ e, update_product_variant vid v s now db = .error e := by
        unfold update_product_variant
        rw [hf1]
        exact ⟨_, rfl⟩
      obtain ⟨e, heq⟩ := heq
      simp only [applyApiOp]
      rw [heq]
      exact ⟨huniq, hinv⟩
    · rcases hf2 : db.products.find?
          (fun p2 => decide (p2.id = ev.product_id ∧ p2.seller_id = some s.id)) with _ | prod
      · have heq : ∃ e, update_product_variant vid v s now db = .error e := by
          unfold update_product_variant
          simp only [hf1, hf2]
          exact ⟨_, rfl⟩
        obtain ⟨e, heq⟩ := heq
        simp only [applyApiOp]
        rw [heq]
        exact ⟨huniq, hinv⟩
      · have heq : ∃ V, update_product_variant vid v s now db = .ok { db with product_variants := V } := by
          unfold update_product_variant
          simp only [hf1, hf2]
          exact ⟨_, rfl⟩
        obtain ⟨V, heq⟩ := heq
        simp only [applyApiOp]
        rw [heq]
        exact ⟨huniq, hinv⟩
  | sellerDeleteVariant vid s =>
    rcases hf1 : db.product_variants.find? (fun v2 => decide (v2.id = vid)) with _ | ev
    · have heq : ∃ e, delete_product_variant vid s db = .error e := by
        unfold delete_product_variant
        rw [hf1]
        exact ⟨_, rfl⟩
      obtain ⟨e, heq⟩ := heq
      simp only [applyApiOp]
      rw [heq]
      exact ⟨huniq, hinv⟩
    · rcases hf2 : db.products.find?
          (fun p2 => decide (p2.id = ev.product_id ∧ p2.seller_id = some s.id)) with _ | prod
      · have heq : ∃ e, delete_product_variant vid s db = .error e := by
          unfold delete_product_variant
          simp only [hf1, hf2]
          exact ⟨_, rfl⟩
        obtain ⟨e, heq⟩ := heq
        simp only [applyApiOp]
        rw [heq]
        exact ⟨huniq, hinv⟩
      · have heq : ∃ V, delete_product_variant vid s db = .ok { db with product_variants := V } := by
          unfold delete_product_variant
          simp only [hf1, hf2]
          exact ⟨_, rfl⟩
        obtain ⟨V, heq⟩ := heq
        simp only [applyApiOp]
        rw [heq]
        exact ⟨huniq, hinv⟩
  | sellerDeleteProduct pid s =>
    rcases hf : db.products.find?
        (fun p2 => decide (p2.id = pid ∧ p2.seller_id = some s.id)) with _ | prod
    · have heq : ∃ e, delete_seller_product pid s db = .error e := by
        unfold delete_seller_product
        rw [hf]
        exact ⟨_, rfl⟩
      obtain ⟨e, heq⟩ := heq
      simp only [applyApiOp]
      rw [heq]
      exact ⟨huniq, hinv⟩
    · have heq : ∃ C P, delete_seller_product pid s db = .ok { db with cart_items := C, products := P } := by
        unfold delete_seller_product
        rw [hf]
        exact ⟨_, _, rfl⟩
      obtain ⟨C, P, heq⟩ := heq
      simp only [applyApiOp]
      rw [heq]
      exact ⟨huniq, hinv⟩
  | adminUpdateProduct pid p =>
    rcases hf : db.products.find? (fun p2 => decide (p2.id = pid)) with _ | prod
    · have heq : ∃ e, update_admin_product pid p db = .error e := by
        unfold update_admin_product
        rw [hf]
        exact ⟨_, rfl⟩
      obtain ⟨e, heq⟩ := heq
      simp only [applyApiOp]
      rw [heq]
      exact ⟨huniq, hinv⟩
    · have heq : ∃ P, update_admin_product pid p db = .ok { db with products := P } := by
        unfold update_admin_product
        rw [hf]
        exact ⟨_, rfl⟩
      obtain ⟨P, heq⟩ := heq
      simp only [applyApiOp]
      rw [heq]
      exact ⟨huniq, hinv⟩
  | adminDeleteProduct pid =>
    rcases hf : db.products.find? (fun p2 => decide (p2.id = pid)) with _ | prod
    · have heq : ∃ e, delete_admin_product pid db = .error e := by
        unfold delete_admin_product
        rw [hf]
        exact ⟨_, rfl⟩
      obtain ⟨e, heq⟩ := heq
      simp only [applyApiOp]
      rw [heq]
      exact ⟨huniq, hinv⟩
    · have heq : ∃ V C W R P, delete_admin_product pid db = .ok { db with
          product_variants := V, cart_items := C,
          order_items := db.order_items.map fun i =>
            if i.product_id = some pid then { i with product_id := none } else i,
          wishlist_items := W, reviews := R, products := P } := by
        unfold delete_admin_product
        rw [hf]
        exact ⟨_, _, _, _, _, rfl⟩
      obtain ⟨V, C, W, R, P, heq⟩ := heq
      simp only [applyApiOp]
      rw [heq]
      refine inv_of_map _ rfl ?_ huniq hinv
      intro i
      by_cases h : i.product_id = some pid <;> simp [h]
  | adminUpdateVariant pid vid v now =>
    rcases hf1 : db.products.find? (fun p2 => decide (p2.id = pid)) with _ | prod
    · have heq : ∃ e, update_admin_product_variant pid vid v now db = .error e := by
        unfold update_admin_product_variant
        rw [hf1]
        exact ⟨_, rfl⟩
      obtain ⟨e, heq⟩ := heq
      simp only [applyApiOp]
      rw [heq]
      exact ⟨huniq, hinv⟩
    · rcases hf2 : db.product_variants.find?
          (fun v2 => decide (v2.id = vid ∧ v2.product_id = pid)) with _ | ev
      · have heq : ∃ e, update_admin_product_variant pid vid v now db = .error e := by
          unfold update_admin_product_variant
          simp only [hf1, hf2]
          exact ⟨_, rfl⟩
        obtain ⟨e, heq⟩ := heq
        simp only [applyApiOp]
        rw [heq]
        exact ⟨huniq, hinv⟩
      · have heq : ∃ V, update_admin_product_variant pid vid v now db = .ok { db with product_variants := V } := by
          unfold update_admin_product_variant
          simp only [hf1, hf2]
          exact ⟨_, rfl⟩
        obtain ⟨V, heq⟩ := heq
        simp only [applyApiOp]
        rw [heq]
        exact ⟨huniq, hinv⟩
  | adminDeleteVariant pid vid =>
    rcases hf1 : db.products.find? (fun p2 => decide (p2.id = pid)) with _ | prod
    · have heq : ∃ e, delete_admin_product_variant pid vid db = .error e := by
        unfold delete_admin_product_variant
        rw [hf1]
        exact ⟨_, rfl⟩
      obtain ⟨e, heq⟩ := heq
      simp only [applyApiOp]
      rw [heq]
      exact ⟨huniq, hinv⟩
    · rcases hf2 : db.product_variants.find?
          (fun v2 => decide (v2.id = vid ∧ v2.product_id = pid)) with _ | ev
      · have heq : ∃ e, delete_admin_product_variant pid vid db = .error e := by
          unfold delete_admin_product_variant
          simp only [hf1, hf2]
          exact ⟨_, rfl⟩
        obtain ⟨e, heq⟩ := heq
        simp only [applyApiOp]
        rw [heq]
        exact ⟨huniq, hinv⟩
      · have heq : ∃ C V, delete_admin_product_variant pid vid db = .ok { db with
            order_items := db.order_items.map fun i =>
              if i.variant_id = some vid then { i with variant_id := none } else i,
            cart_items := C, product_variants := V } := by
          unfold delete_admin_product_variant
          simp only [hf1, hf2]
          exact ⟨_, _, rfl⟩
        obtain ⟨C, V, heq⟩ := heq
        simp only [applyApiOp]
        rw [heq]
        refine inv_of_map _ rfl ?_ huniq hinv
        intro i
        by_cases h : i.variant_id = some vid <;> simp [h]

/-- Witness for C5 (amended): a concrete customer return request preserves
both the key-uniqueness and the delivered-before-return invariant. -/
theorem return_activation_requires_delivered_invariant_witness :
    uniqueItemIds (applyApiOp (.customerRequestReturn 1 { reason := "r" } custW4 5) dbW4) ∧
    delivered_before_return (applyApiOp (.customerRequestReturn 1 { reason := "r" } custW4 5) dbW4) :=
  return_activation_requires_delivered_invariant
    (.customerRequestReturn 1 { reason := "r" } custW4 5) dbW4 rfl
    (by simp [uniqueItemIds, dbW4]) (by unfold delivered_before_return; decide)

/-- Concrete pending (undelivered) order item. -/
def itemC5 : OrderItem :=
  { id := 1, order_id := 1, product_id := some 1, price := 10, seller_id := some 2,
    status := "Pending" }

/-- Concrete store around `itemC5`. -/
def dbC5 : Db :=
  { orders := [{ id := 1, user_id := 1 }], order_items := [itemC5] }

/-- Counterexample to C5 as stated: the admin return-status override engages
a return ("ReturnAccepted") on an item that is still "Pending" — the
transition is reachable with `status ≠ "Delivered"`, so the
delivered-before-return property is destroyed. -/
theorem admin_return_override_ignores_delivery_cex :
    delivered_before_return dbC5 ∧
    handlerOk (admin_override_return_status 1 { status := "ReturnAccepted" } 7 dbC5) = true ∧
    ((runHandler dbC5 (admin_override_return_status 1 { status := "ReturnAccepted" } 7 dbC5)).order_items.map
      fun i => (i.status, i.return_status)) = [("Pending", some "ReturnAccepted")] ∧
    ¬ delivered_before_return
      (runHandler dbC5 (admin_override_return_status 1 { status := "ReturnAccepted" } 7 dbC5)) := by
  refine ⟨by unfold delivered_before_return; decide, rfl, rfl, by unfold delivered_before_return; decide⟩

/-- C8: no embedded API operation — product edits, price changes, variant
edits, product/variant deletion (seller or admin scope), nor any
fulfillment/return mutation — changes the checkout-time snapshot view of
the order-item table: each surviving row keeps its price, variant
size/color/image and seller id (admin deletions only null the live
`product_id`/`variant_id` references, which are not snapshot fields). -/
theorem snapshot_fields_immutable (op : ApiOp) (db : Db) :
    ((applyApiOp op db).order_items).map snapshotView = db.order_items.map snapshotView := by
  have hstep : ∀ (g : OrderItem → OrderItem), (∀ i, snapshotView (g i) = snapshotView i) →
      ∀ (items : List OrderItem), ((items.map g).map snapshotView = items.map snapshotView) :=
    fun g hg items => map_snapshot_of_preserving g hg items
  cases op with
  | sellerAccept iid s =>
    simp only [applyApiOp, accept_order_item]
    split
    · rfl
    · split
      · rfl
      · simp only [runHandler]
        rw [(update_order_status_frame _ _).1]
        exact hstep _ (fun i => by by_cases h : i.id = iid <;> simp [snapshotView, updItem, h]) _
  | sellerReject iid req s =>
    simp only [applyApiOp, reject_order_item]
    split
    · rfl
    · split
      · rfl
      · simp only [runHandler]
        rw [(update_order_status_frame _ _).1]
        exact hstep _ (fun i => by by_cases h : i.id = iid <;> simp [snapshotView, updItem, h]) _
  | customerRequestReturn iid req c now =>
    simp only [applyApiOp, request_return]
    split
    · rfl
    · split
      · rfl
      · split
        · rfl
        · split
          · rfl
          · split
            · rfl
            · split
              · rfl
              · simp only [runHandler]
                exact hstep _ (fun i => by by_cases h : i.id = iid <;> simp [snapshotView, updItem, h]) _
  | customerCancelReturn iid c =>
    simp only [applyApiOp, cancel_return]
    split
    · rfl
    · split
      · rfl
      · split
        · rfl
        · split
          · rfl
          · simp only [runHandler]
            exact hstep _ (fun i => by by_cases h : i.id = iid <;> simp [snapshotView, updItem, h]) _
  | sellerAcceptReturn iid s now =>
    simp only [applyApiOp, accept_return]
    split
    · rfl
    · split
      · rfl
      · simp only [runHandler]
        exact hstep _ (fun i => by by_cases h : i.id = iid <;> simp [snapshotView, updItem, h]) _
  | sellerRejectReturn iid req s now =>
    simp only [applyApiOp, reject_return]
    split
    · rfl
    · split
      · rfl
      · simp only [runHandler]
        exact hstep _ (fun i => by by_cases h : i.id = iid <;> simp [snapshotView, updItem, h]) _
  | sellerMarkReceived iid s now =>
    simp only [applyApiOp, mark_return_received]
    split
    · rfl
    · split
      · rfl
      · simp only [runHandler]
        exact hstep _ (fun i => by by_cases h : i.id = iid <;> simp [snapshotView, updItem, h]) _
  | adminOverrideItemStatus iid req =>
    simp only [applyApiOp, admin_override_order_item_status]
    split
    · rfl
    · split
      · rfl
      · simp only [runHandler]
        refine hstep _ (fun i => ?_) _
        by_cases h : i.id = iid
        · simp only [updItem, if_pos h]
          by_cases h2 : strTruthy req.reason = true <;>
            by_cases h3 : req.status ≠ "Rejected" <;>
            simp [snapshotView, h2, h3]
        · simp [updItem, if_neg h]
  | adminOverrideReturnStatus iid req now =>
    simp only [applyApiOp, admin_override_return_status]
    split
    · rfl
    · split
      · rfl
      · simp only [runHandler]
        refine hstep _ (fun i => ?_) _
        by_cases h : i.id = iid
        · simp only [updItem, if_pos h]
          by_cases h2 : strTruthy req.notes = true <;>
            by_cases h3 : req.status ∈ processed_stamp_statuses <;>
            simp [snapshotView, h2, h3]
        · simp [updItem, if_neg h]
  | sellerUpdateProduct pid p s =>
    simp only [applyApiOp, update_seller_product]
    split
    · rfl
    · rfl
  | sellerUpdateVariant vid v s now =>
    simp only [applyApiOp, update_product_variant]
    split
    · rfl
    · split
      · rfl
      · rfl
  | sellerDeleteVariant vid s =>
    simp only [applyApiOp, delete_product_variant]
    split
    · rfl
    · split
      · rfl
      · rfl
  | sellerDeleteProduct pid s =>
    simp only [applyApiOp, delete_seller_product]
    split
    · rfl
    · rfl
  | adminUpdateProduct pid p =>
    simp only [applyApiOp, update_admin_product]
    split
    · rfl
    · rfl
  | adminDeleteProduct pid =>
    simp only [applyApiOp, delete_admin_product]
    split
    · rfl
    · simp only [runHandler]
      refine hstep _ (fun i => ?_) _
      by_cases h : i.product_id = some pid <;> simp [snapshotView, h]
  | adminUpdateVariant pid vid v now =>
    simp only [applyApiOp, update_admin_product_variant]
    split
    · rfl
    · split
      · rfl
      · rfl
  | adminDeleteVariant pid vid =>
    simp only [applyApiOp, delete_admin_product_variant]
    split
    · rfl
    · split
      · rfl
      · simp only [runHandler]
        refine hstep _ (fun i => ?_) _
        by_cases h : i.variant_id = some vid <;> simp [snapshotView, h]

end AlmirahShop
